import Mathlib

/-! EcoTrack front end

A shallow embedding of the event handlers of the EcoTrack single-page application
(`src/src/App.jsx`, `src/src/components/Navbar.jsx`, `src/src/pages/**`).

Conventions of the embedding.

* React state of a page is a structure; a handler is a function from the state it closes
  over, the browser environment and the outcome of the HTTP call it awaits to the state and
  environment it leaves behind.
* Everything a handler does outside React state is recorded in `Env`: local storage,
  toasts, `window.alert` boxes, HTTP requests, `navigate` calls and timers.
* Values that come from JSON are `JsVal`. Built-ins whose results are engine defined are
  fields of `Platform`, and every theorem holds for every platform.
-/

namespace EcoTrack

/-! ## JavaScript values -/

/-- A JavaScript value as far as the pages look at one: what `JSON.parse` returns, together
with `undefined` and `NaN`. Finite numbers are rationals; infinities are not represented. -/
inductive JsVal where
  | undefined : JsVal
  | null : JsVal
  | bool (b : Bool) : JsVal
  | num (q : Rat) : JsVal
  | nan : JsVal
  | str (s : String) : JsVal
  | arr (items : List JsVal) : JsVal
  | obj (props : List (String × JsVal)) : JsVal

/-- Built-ins whose result depends on the engine or on Unicode tables. -/
structure Platform where
  /-- `Number.prototype.toString` on a finite number. -/
  numberToString : Rat → String
  /-- `String.prototype.toLowerCase`. -/
  toLowerCase : String → String
  /-- `parseFloat` on a string. -/
  parseFloat : String → JsVal
  /-- The time value in milliseconds of `new Date(v)`, `none` for an invalid date. -/
  dateOf : JsVal → Option Int
  /-- The `message` of the TypeError raised by reading the named property of `null` or
  `undefined`. -/
  typeErrorMessage : String → String

namespace JsVal

/-- ToBoolean: `undefined`, `null`, `false`, `0`, `NaN` and `""` are falsy. -/
def truthy : JsVal → Bool
  | undefined => false
  | null => false
  | bool b => b
  | num q => decide (q ≠ 0)
  | nan => false
  | str s => decide (s ≠ "")
  | arr _ => true
  | obj _ => true

/-- The operator `a || b`. -/
def or (a b : JsVal) : JsVal := if a.truthy then a else b

/-- Whether a value is `null` or `undefined`. -/
def nullish : JsVal → Bool
  | undefined => true
  | null => true
  | _ => false

/-- The operator `a ?? b`. -/
def coalesce (a b : JsVal) : JsVal := if a.nullish then b else a

/-- Own-property lookup in a property list; an absent name reads as `undefined`. -/
def lookup (name : String) : List (String × JsVal) → JsVal
  | [] => undefined
  | (k, v) :: rest => if k = name then v else lookup name rest

/-- The member access `v.name` for a data property name: `none` is the TypeError raised on
`null` and `undefined`; on an object it is the own property; primitives and arrays carry
no such data property. -/
def getProp (v : JsVal) (name : String) : Option JsVal :=
  match v with
  | undefined => none
  | null => none
  | obj props => some (lookup name props)
  | _ => some undefined

/-- The optional access `v?.name`: `undefined` on `null` and `undefined`. -/
def getPropOpt (v : JsVal) (name : String) : JsVal :=
  (v.getProp name).getD undefined

mutual
/-- ToString. -/
def toJsString (P : Platform) : JsVal → String
  | undefined => "undefined"
  | null => "null"
  | bool true => "true"
  | bool false => "false"
  | num q => P.numberToString q
  | nan => "NaN"
  | str s => s
  | arr items => joinItems P items
  | obj _ => "[object Object]"
/-- The body of `Array.prototype.join(",")`: `null` and `undefined` items print empty. -/
def joinItems (P : Platform) : List JsVal → String
  | [] => ""
  | [x] => if x.nullish then "" else toJsString P x
  | x :: y :: rest =>
    (if x.nullish then "" else toJsString P x) ++ "," ++ joinItems P (y :: rest)
end

end JsVal

/-- The global `parseFloat`: its argument is first converted to a string. -/
def parseFloat (P : Platform) (v : JsVal) : JsVal := P.parseFloat (v.toJsString P)

/-- The code points `String.prototype.trim` strips: WhiteSpace and LineTerminator of
ECMAScript (tab, VT, FF, the space separators of Unicode, the byte order mark, LF, CR, LS,
PS). -/
def isWhiteSpace (c : Char) : Bool :=
  let n := c.toNat
  n == 0x09 || n == 0x0A || n == 0x0B || n == 0x0C || n == 0x0D || n == 0x20 ||
  n == 0xA0 || n == 0x1680 || (0x2000 ≤ n && n ≤ 0x200A) || n == 0x2028 || n == 0x2029 ||
  n == 0x202F || n == 0x205F || n == 0x3000 || n == 0xFEFF

/-- The method `String.prototype.trim`. -/
def trim (s : String) : String :=
  String.mk ((s.toList.dropWhile isWhiteSpace).rdropWhile isWhiteSpace)

/-- How an awaited `fetch` followed by `res.json()` ends: `fetch` rejects with an error of
the given message, or a response arrives with its `ok` flag and a body that either fails to
parse (with the message of that error) or parses to a value. -/
inductive FetchOutcome where
  | networkError (message : String)
  | notJson (ok : Bool) (message : String)
  | json (ok : Bool) (data : JsVal)

/-! ## The browser environment -/

/-- Web Storage: at most one string per key. -/
abbrev Storage := String → Option String

namespace Storage

/-- The call `localStorage.getItem(key)`; `none` is `null`. -/
def getItem (st : Storage) (key : String) : Option String := st key

/-- The call `localStorage.setItem(key, value)`. -/
def setItem (st : Storage) (key value : String) : Storage :=
  fun k => if k = key then some value else st k

/-- The call `localStorage.removeItem(key)`. -/
def removeItem (st : Storage) (key : String) : Storage :=
  fun k => if k = key then none else st k

/-- A storage holding nothing. -/
def empty : Storage := fun _ => none

end Storage

/-- The two toast flavours the pages raise. -/
inductive ToastKind where
  | success
  | error
  deriving DecidableEq, Repr

/-- A react-hot-toast call: flavour and text (styling dropped). -/
structure Toast where
  kind : ToastKind
  text : String
  deriving DecidableEq, Repr

/-- A file picked in a file input. -/
structure JsFile where
  name : String
  content : String
  deriving DecidableEq, Repr

/-- One field of a multipart form. -/
inductive FormValue where
  | text (s : String)
  | file (f : JsFile)
  deriving DecidableEq, Repr

/-- What a request carries. -/
inductive ReqBody where
  | empty
  | json (v : JsVal)
  | form (fields : List (String × FormValue))

/-- An HTTP request handed to `fetch` or axios. -/
structure Request where
  method : String
  url : String
  body : ReqBody

/-- A `navigate(path, { state })` call; `state` is `undefined` when none is passed. -/
structure Navigation where
  path : String
  state : JsVal

/-- A `setTimeout(() => navigate(path), delay)` registration. -/
structure Timeout where
  delay : Nat
  path : String
  deriving DecidableEq, Repr

/-- Everything a handler touches outside React state. -/
structure Env where
  storage : Storage
  toasts : List Toast
  alerts : List String
  requests : List Request
  navigations : List Navigation
  timeouts : List Timeout

namespace Env

/-- An environment with the given storage and nothing else recorded. -/
def init (st : Storage) : Env :=
  { storage := st, toasts := [], alerts := [], requests := [], navigations := [],
    timeouts := [] }

/-- Record a toast. -/
def toast (env : Env) (kind : ToastKind) (text : String) : Env :=
  { env with toasts := env.toasts ++ [{ kind := kind, text := text }] }

/-- Record a `window.alert`. -/
def alert (env : Env) (text : String) : Env :=
  { env with alerts := env.alerts ++ [text] }

/-- Record an HTTP request. -/
def send (env : Env) (r : Request) : Env :=
  { env with requests := env.requests ++ [r] }

/-- Record a `navigate` call. -/
def navigate (env : Env) (path : String) (state : JsVal) : Env :=
  { env with navigations := env.navigations ++ [{ path := path, state := state }] }

/-- Record a timer that navigates. -/
def navigateAfter (env : Env) (delay : Nat) (path : String) : Env :=
  { env with timeouts := env.timeouts ++ [{ delay := delay, path := path }] }

end Env

/-- How an awaited axios call ends. A rejection carries `err.response.data` when the server
answered with a status outside 2xx and nothing (`err.response` undefined) otherwise. -/
inductive AxiosOutcome where
  | resolved (data : JsVal)
  | rejected (response : Option JsVal)

/-! ## Auth pages and the navigation bar -/

/-- React state of `Login`. -/
structure LoginState where
  email : String
  password : String
  showPassword : Bool

namespace Login

/-- The `catch` block of `handleLogin`: `err.response?.data?.message || "Login failed!"`
shown in an error toast. `response` is `err.response.data` when there is one. -/
def onError (P : Platform) (env : Env) (response : Option JsVal) : Env :=
  let message :=
    match response with
    | none => JsVal.undefined
    | some data => data.getPropOpt "message"
  let msg := message.or (.str "Login failed!")
  env.toast .error ("❌ " ++ msg.toJsString P)

/-- `handleLogin` (Login.jsx 17-58). `dest` is the `from` of line 15, `o` the outcome of the
awaited `axios.post`. Reading `res.data.token` of a `null` body throws inside `try`, which
lands in `catch` with an error that has no `response`. -/
def handleLogin (P : Platform) (dest : String) (s : LoginState) (env : Env)
    (o : AxiosOutcome) : Env :=
  let env := env.send
    { method := "POST", url := "http://localhost:5000/api/auth/login",
      body := .json (.obj [("email", .str (P.toLowerCase s.email)),
                           ("password", .str s.password)]) }
  match o with
  | .resolved data =>
    match data.getProp "token" with
    | some token =>
      let env := { env with storage := env.storage.setItem "token" (token.toJsString P) }
      let env := env.toast .success
        "👋 Welcome back! You’re being redirected to where you left off."
      env.navigateAfter 2500 dest
    | none => onError P env none
  | .rejected response => onError P env response

end Login

/-- React state of `Signup`. -/
structure SignupState where
  username : String
  email : String
  password : String
  showPassword : Bool

namespace Signup

/-- The `catch` block of `handleSignup`. -/
def onError (P : Platform) (env : Env) (response : Option JsVal) : Env :=
  let message :=
    match response with
    | none => JsVal.undefined
    | some data => data.getPropOpt "message"
  let msg := message.or (.str "Signup failed!")
  env.toast .error ("❌ " ++ msg.toJsString P)

/-- `handleSignup` (Signup.jsx 15-55): the response of the awaited call is discarded. -/
def handleSignup (P : Platform) (s : SignupState) (env : Env) (o : AxiosOutcome) : Env :=
  let env := env.send
    { method := "POST", url := "http://localhost:5000/api/auth/signup",
      body := .json (.obj [("name", .str s.username),
                           ("email", .str (P.toLowerCase s.email)),
                           ("password", .str s.password)]) }
  match o with
  | .resolved _ =>
    let env := env.toast .success "🎉 Account created! Redirecting to login..."
    env.navigateAfter 2500 "/login"
  | .rejected response => onError P env response

end Signup

namespace Navbar

/-- `handleLogout` (Navbar.jsx 19-22). -/
def handleLogout (env : Env) : Env :=
  let env := { env with storage := env.storage.removeItem "token" }
  env.navigate "/login" .undefined

/-- `isLoggedIn` (Navbar.jsx 24): `!!localStorage.getItem("token")`. -/
def isLoggedIn (env : Env) : Bool :=
  match env.storage.getItem "token" with
  | none => false
  | some t => decide (t ≠ "")

end Navbar

/-! ## The route table -/

/-- The page components `App.jsx` imports. -/
inductive Page where
  | LandingPage | Dashboard | About | Features | Signup | ContactUs | Login
  | PatternPage | PatternResult | TrackerPage | ReportsPage | ChatbotPage | AlertsPage
  deriving DecidableEq, Repr

/-- What the router shows for a location. -/
inductive View where
  | page (p : Page)
  | redirect (target : String)
  | noMatch
  deriving DecidableEq, Repr

/-- Modelled from the spec: `components/PrivateRoute.jsx`, which `App.jsx` imports and whose
source is not part of the repository snapshot. Spec 4.2: "A wrapper checks for presence of a
stored token before rendering a protected page; absence redirects to login." -/
def PrivateRoute (env : Env) (children : View) : View :=
  match env.storage.getItem "token" with
  | some _ => children
  | none => .redirect "/login"

/-- One `<Route path=... element=... />` of `App.jsx`; `gated` says that the element is
wrapped in `<PrivateRoute>`. -/
structure Route where
  path : String
  gated : Bool
  page : Page
  deriving DecidableEq, Repr

namespace App

/-- The `<Routes>` block of `App.jsx` (lines 27-57), in source order. -/
def routes : List Route :=
  [ { path := "/", gated := false, page := .LandingPage },
    { path := "/dashboard", gated := true, page := .Dashboard },
    { path := "/about", gated := true, page := .About },
    { path := "/features", gated := true, page := .Features },
    { path := "/signup", gated := false, page := .Signup },
    { path := "/contact", gated := false, page := .ContactUs },
    { path := "/login", gated := false, page := .Login },
    { path := "/pattern", gated := false, page := .PatternPage },
    { path := "/pattern/result", gated := false, page := .PatternResult },
    { path := "/tracker", gated := false, page := .TrackerPage },
    { path := "/reports", gated := false, page := .ReportsPage },
    { path := "/chatbot", gated := false, page := .ChatbotPage },
    { path := "/alerts", gated := false, page := .AlertsPage } ]

/-- The element of a route, rendered. -/
def element (env : Env) (r : Route) : View :=
  if r.gated then PrivateRoute env (.page r.page) else .page r.page

/-- What `<Routes>` renders at a location: the element of the route with that path. -/
def render (env : Env) (path : String) : View :=
  match routes.find? (fun r => r.path == path) with
  | some r => element env r
  | none => .noMatch

end App

/-! ## Dashboard -/

/-- The `metrics` state of `Dashboard`. -/
structure Metrics where
  carbonEmission : JsVal
  waterUsage : JsVal
  fabricWaste : JsVal

/-- One point of the dashboard chart. -/
structure ChartEntry where
  time : String
  CO2 : JsVal
  Water : JsVal

/-- React state of `Dashboard`. -/
structure DashboardState where
  metrics : Metrics
  chartData : List ChartEntry
  loading : Bool

/-- The call `xs.slice(-n)`: the last `n` items, all of them when there are fewer. -/
def sliceLast {α : Type} (n : Nat) (xs : List α) : List α :=
  xs.drop (xs.length - n)

namespace Dashboard

/-- The initial state (Dashboard.jsx 19-26). -/
def init : DashboardState :=
  { metrics := { carbonEmission := .str "--", waterUsage := .str "--",
                 fabricWaste := .str "--" },
    chartData := [], loading := true }

/-- The `newEntry` of the `setChartData` updater (lines 46-50); `time` is what
`new Date().toLocaleTimeString(...)` returns when the updater runs. -/
def newEntry (P : Platform) (time : String) (carbonVal waterVal : JsVal) : ChartEntry :=
  { time := time, CO2 := parseFloat P carbonVal, Water := parseFloat P waterVal }

/-- The entry a fetch with body `data` at clock reading `time` adds to the chart. -/
def entryOf (P : Platform) (time : String) (data : JsVal) : ChartEntry :=
  newEntry P time ((data.getPropOpt "co2").coalesce (.str "--"))
    ((data.getPropOpt "water").coalesce (.str "--"))

/-- `fetchDashboardData` (Dashboard.jsx 29-59). Reading a property of a `null` body throws
inside `try`; `catch` only logs; `finally` clears `loading`. -/
def fetchDashboardData (P : Platform) (time : String) (s : DashboardState) (env : Env)
    (o : AxiosOutcome) : DashboardState × Env :=
  let env := env.send
    { method := "GET", url := "http://localhost:5000/api/dashboard/stats", body := .empty }
  match o with
  | .resolved data =>
    match data.getProp "co2", data.getProp "water", data.getProp "waste" with
    | some co2, some water, some waste =>
      let carbonVal := co2.coalesce (.str "--")
      let waterVal := water.coalesce (.str "--")
      let wasteVal := waste.coalesce (.str "--")
      let updated := s.chartData ++ [newEntry P time carbonVal waterVal]
      ({ metrics := { carbonEmission := carbonVal, waterUsage := waterVal,
                      fabricWaste := wasteVal },
         chartData := sliceLast 5 updated,
         loading := false }, env)
    | _, _, _ => ({ s with loading := false }, env)
  | .rejected _ => ({ s with loading := false }, env)

/-- The page state after a run of fetches that all resolve, each given by the clock reading
when its chart update runs and the response body. -/
def afterFetches (P : Platform) (fetches : List (String × JsVal)) : DashboardState :=
  (fetches.foldl
    (fun (acc : DashboardState × Env) f => fetchDashboardData P f.1 acc.1 acc.2 (.resolved f.2))
    (init, Env.init Storage.empty)).1

end Dashboard

/-! ## Alerts -/

/-- The properties of a JSON object. -/
abbrev JsObject := List (String × JsVal)

/-- How one of the two alert requests of `fetchAlerts` ends: `fetch` rejects, the body is
not JSON, or the body parses. Of a parsed body the handler reads only `alerts`: `some xs`
when that is an array of alert objects, `none` when it is missing or cannot be spread (a
TypeError). -/
inductive AlertsReply where
  | networkError
  | notJson
  | body (alerts : Option (List JsObject))

/-- React state of `AlertsPage`. -/
structure AlertsState where
  messages : List JsVal
  manualMsg : String
  loading : Bool

/-- Stable insertion of `a` into `l` under the comparator `cmp`: `a` goes in front of the
first item it does not have to follow (`cmp a b > 0` is false). -/
def sortInsert {α : Type} (cmp : α → α → Option Int) (a : α) : List α → List α
  | [] => [a]
  | b :: l =>
    match cmp a b with
    | some v => if v > 0 then b :: sortInsert cmp a l else a :: b :: l
    | none => a :: b :: l

/-- The method `Array.prototype.sort(cmp)` on a copy. A comparator result `none` is `NaN`,
which the sort reads as `+0`. For a consistent comparator ECMAScript fixes the result, the
stable ordering, which is what insertion from the right computes; for other comparators the
order is engine defined and this is one admissible outcome. -/
def jsSort {α : Type} (cmp : α → α → Option Int) : List α → List α
  | [] => []
  | a :: l => sortInsert cmp a (jsSort cmp l)

namespace AlertsPage

/-- The time value of `new Date(a.createdAt || Date.now())`, `none` for an invalid date;
`now` is the reading of `Date.now()`. -/
def timeOf (P : Platform) (now : Int) (a : JsObject) : Option Int :=
  let createdAt := JsVal.lookup "createdAt" a
  if createdAt.truthy then P.dateOf createdAt else some now

/-- The comparator of line 24: the date of `b` minus the date of `a`; `none` is `NaN`. -/
def compare (P : Platform) (now : Int) (a b : JsObject) : Option Int :=
  match timeOf P now b, timeOf P now a with
  | some tb, some ta => some (tb - ta)
  | _, _ => none

/-- The `combined` of lines 23-25. -/
def combine (P : Platform) (now : Int) (manual auto : List JsObject) : List JsObject :=
  jsSort (compare P now) (manual ++ auto)

/-- `fetchAlerts` (AlertsPage.jsx 12-33). The second request goes out only once the first
body has parsed; a second body that is not JSON is replaced by `{ alerts: [] }`. -/
def fetchAlerts (P : Platform) (now : Int) (s : AlertsState) (env : Env)
    (autoReply manualReply : AlertsReply) : AlertsState × Env :=
  let env := env.send
    { method := "GET", url := "http://localhost:5000/api/alerts/auto", body := .empty }
  match autoReply with
  | .networkError => ({ s with loading := false }, env)
  | .notJson => ({ s with loading := false }, env)
  | .body autoAlerts =>
    let env := env.send
      { method := "GET", url := "http://localhost:5000/api/alerts/manual", body := .empty }
    let manualAlerts : Option (Option (List JsObject)) :=
      match manualReply with
      | .networkError => none
      | .notJson => some (some [])
      | .body alerts => some alerts
    match manualAlerts, autoAlerts with
    | some (some manual), some auto =>
      ({ s with messages := (combine P now manual auto).map JsVal.obj, loading := false }, env)
    | _, _ => ({ s with loading := false }, env)

/-- `handleSend` (AlertsPage.jsx 36-56). `messages` is the list the handler closed over. -/
def handleSend (s : AlertsState) (env : Env) (o : FetchOutcome) : AlertsState × Env :=
  if trim s.manualMsg = "" then (s, env)
  else
    let env := env.send
      { method := "POST", url := "http://localhost:5000/api/alerts/manual",
        body := .json (.obj [("message", .str s.manualMsg)]) }
    match o with
    | .networkError _ => (s, env)
    | .notJson _ _ => (s, env)
    | .json _ data =>
      match data.getProp "success" with
      | none => (s, env)
      | some success =>
        if success.truthy then
          ({ s with messages := data.getPropOpt "newAlert" :: s.messages, manualMsg := "" },
           env)
        else (s, env)

end AlertsPage

/-! ## Tracker -/

/-- The `result` object `handleTrack` builds. -/
structure TrackerResult where
  eco_level : JsVal
  eco_score : JsVal
  co2 : JsVal
  water : JsVal
  analysis : JsVal

/-- One point of the tracker chart. -/
structure TrackerPoint where
  name : String
  CO2 : JsVal
  Water : JsVal

/-- React state of `TrackerPage`. -/
structure TrackerState where
  productType : String
  co2 : String
  water : String
  energy : String
  pollutant : String
  waste : String
  result : Option TrackerResult
  chartData : List TrackerPoint
  tone : String
  apiError : Option String
  loading : Bool

namespace TrackerPage

/-- The `catch` block of `handleTrack` (lines 91-94). -/
def onError (s : TrackerState) (message : String) : TrackerState :=
  { s with apiError := some ("❌ " ++ message), loading := false }

/-- `handleTrack` (TrackerPage.jsx 40-95). -/
def handleTrack (P : Platform) (s : TrackerState) (env : Env) (o : FetchOutcome) :
    TrackerState × Env :=
  let s := { s with apiError := none, loading := true }
  if s.productType = "" ∨ s.co2 = "" ∨ s.water = "" ∨ s.energy = "" ∨ s.pollutant = "" ∨
      s.waste = "" then
    ({ s with loading := false }, env.toast .error "⚠️ All fields are required.")
  else
    let ghg := (P.parseFloat s.co2).or (.num 0)
    let waterC := (P.parseFloat s.water).or (.num 0)
    let energyC := (P.parseFloat s.energy).or (.num 0)
    let wasteC := (P.parseFloat s.waste).or (.num 0)
    let pollutantsC := (P.parseFloat s.pollutant).or (.num 0)
    let env := env.send
      { method := "POST", url := "http://127.0.0.1:5000/predict",
        body := .json (.obj
          [("product_type", .str s.productType),
           ("greenhouse_gas_emissions", ghg),
           ("water_consumption", waterC),
           ("energy_consumption", energyC),
           ("pollutants_emitted", pollutantsC),
           ("waste_generation", wasteC),
           ("tone", .str s.tone)]) }
    match o with
    | .networkError message => (onError s message, env)
    | .notJson _ message => (onError s message, env)
    | .json false data =>
      match data.getProp "error" with
      | none => (onError s (P.typeErrorMessage "error"), env)
      | some e => (onError s ((e.or (.str "Prediction failed")).toJsString P), env)
    | .json true data =>
      match data.getProp "eco_level" with
      | none => (onError s (P.typeErrorMessage "eco_level"), env)
      | some _ =>
        ({ s with
            result := some
              { eco_level := data.getPropOpt "eco_level",
                eco_score := data.getPropOpt "eco_score",
                co2 := ghg, water := waterC,
                analysis := data.getPropOpt "analysis" },
            chartData := s.chartData ++ [{ name := s.productType, CO2 := ghg, Water := waterC }],
            loading := false }, env)

end TrackerPage

/-! ## Pattern optimizer -/

/-- React state of `PatternPage`. -/
structure PatternState where
  patternFile : Option JsFile
  loading : Bool
  productType : String
  fabricWidth : String
  fabricType : String
  seamAllowance : String
  allowRotation : Bool
  strategy : String

namespace PatternPage

/-- The `catch` and `finally` blocks of `handleOptimize` (lines 65-70). -/
def onError (s : PatternState) (env : Env) (message : String) : PatternState × Env :=
  ({ s with loading := false }, env.alert ("Error during optimization: " ++ message))

/-- `handleOptimize` (PatternPage.jsx 30-71). -/
def handleOptimize (P : Platform) (s : PatternState) (env : Env) (o : FetchOutcome) :
    PatternState × Env :=
  match s.patternFile with
  | none => (s, env.alert "Please upload a pattern DXF file.")
  | some patternFile =>
    if s.fabricWidth = "" then (s, env.alert "Please specify fabric width.")
    else
      let s := { s with loading := true }
      let env := env.send
        { method := "POST", url := "http://127.0.0.1:5001/optimize",
          body := .form
            [("dxf_file", .file patternFile),
             ("fabric_width", .text s.fabricWidth),
             ("fabric_type", .text s.fabricType),
             ("seam_allowance", .text s.seamAllowance),
             ("allow_rotation", .text (if s.allowRotation then "true" else "false")),
             ("strategy", .text s.strategy)] }
      match o with
      | .networkError message => onError s env message
      | .notJson _ message => onError s env message
      | .json false errorData =>
        match errorData.getProp "error" with
        | none => onError s env (P.typeErrorMessage "error")
        | some e => onError s env ((e.or (.str "Optimization failed")).toJsString P)
      | .json true data =>
        ({ s with loading := false },
         env.navigate "/pattern/result" (.obj [("result", data)]))

end PatternPage

/-! ## Chatbot -/

/-- One entry of the chat transcript; `sender` is the `from` field. -/
structure ChatMessage where
  sender : String
  text : JsVal

/-- React state of `ChatbotPage`. -/
structure ChatbotState where
  messages : List ChatMessage
  input : String

namespace ChatbotPage

/-- The initial state (ChatbotPage.jsx 7-10). -/
def init : ChatbotState :=
  { messages :=
      [{ sender := "bot",
         text := .str "Hi there! I'm EcoBot 🌿. Ask me anything about sustainability." }],
    input := "" }

/-- The message the `catch` block appends. -/
def failureMessage : ChatMessage :=
  { sender := "bot", text := .str "❌ EcoBot: Failed to reach server." }

/-- `sendMessage` (ChatbotPage.jsx 13-37). -/
def sendMessage (s : ChatbotState) (env : Env) (o : FetchOutcome) : ChatbotState × Env :=
  if trim s.input = "" then (s, env)
  else
    let messages := s.messages ++ [{ sender := "user", text := .str s.input }]
    let env := env.send
      { method := "POST", url := "http://localhost:8000/api/chat",
        body := .json (.obj [("text", .str s.input)]) }
    let botMsg : ChatMessage :=
      match o with
      | .networkError _ => failureMessage
      | .notJson _ _ => failureMessage
      | .json _ data =>
        match data.getProp "reply" with
        | none => failureMessage
        | some reply => { sender := "bot", text := reply }
    ({ messages := messages ++ [botMsg], input := "" }, env)

end ChatbotPage

/-! ## Dashboard: what the cards show -/

/-- The comparison `v === s` against a string literal. -/
def JsVal.isString (v : JsVal) (s : String) : Bool :=
  match v with
  | .str t => t == s
  | _ => false

/-- One entry of the `stats` array (styling dropped). -/
structure Stat where
  title : String
  value : String
  unit : String
  deriving DecidableEq, Repr

namespace Dashboard

/-- The `value` of a stat card (lines 70, 77, 84): the metric followed by its suffix unless
the metric is the placeholder string. -/
def statValue (P : Platform) (metric : JsVal) (suffix : String) : String :=
  if metric.isString "--" then "--" else metric.toJsString P ++ suffix

/-- The `stats` array (Dashboard.jsx 67-89). -/
def stats (P : Platform) (s : DashboardState) : List Stat :=
  [ { title := "CO₂ Emissions", value := statValue P s.metrics.carbonEmission " Tons",
      unit := "Today" },
    { title := "Water Usage", value := statValue P s.metrics.waterUsage " L",
      unit := "Per Batch" },
    { title := "Fabric Waste", value := statValue P s.metrics.fabricWaste " %",
      unit := "Utilization" } ]

/-- The text of the three cards (line 122): `loading ? "Loading..." : stat.value`. -/
def cards (P : Platform) (s : DashboardState) : List String :=
  (stats P s).map (fun stat => if s.loading then "Loading..." else stat.value)

/-- Whether a fetch runs its `try` block to the end: the request resolved and the body is
one whose properties can be read. -/
def succeeds : AxiosOutcome → Bool
  | .resolved data => !data.nullish
  | .rejected _ => false

/-- The page state after a run of fetches, each given by the clock reading of its chart
update and the outcome of its request. -/
def run (P : Platform) (s : DashboardState) (env : Env) (steps : List (String × AxiosOutcome)) :
    DashboardState × Env :=
  steps.foldl (fun acc step => fetchDashboardData P step.1 acc.1 acc.2 step.2) (s, env)

/-- The destinations of the tool links and of the chatbot button (lines 171-208). -/
def toolLinks : List String := ["/pattern", "/tracker", "/reports", "/alerts", "/chatbot"]

end Dashboard

/-! ## Report analyzer -/

/-- React state of `ReportPage`; `analysis` starts as `null`. -/
structure ReportsState where
  file : Option JsFile
  analysis : JsVal
  loading : Bool
  error : String

namespace ReportsPage

/-- The initial state (ReportsPage.jsx 6-9). -/
def init : ReportsState :=
  { file := none, analysis := .null, loading := false, error := "" }

/-- `handleFileUpload` (lines 11-15); `picked` is `e.target.files[0]`. -/
def handleFileUpload (s : ReportsState) (picked : Option JsFile) : ReportsState :=
  { s with file := picked, analysis := .null, error := "" }

/-- The `catch` and `finally` blocks of `handleAnalyze` (lines 36-40):
`setError(err.message || "Error analyzing report")`. -/
def onError (s : ReportsState) (message : String) : ReportsState :=
  { s with error := if message = "" then "Error analyzing report" else message,
           loading := false }

/-- `handleAnalyze` (ReportsPage.jsx 17-41). The status of the response is not looked at. -/
def handleAnalyze (P : Platform) (s : ReportsState) (env : Env) (o : FetchOutcome) :
    ReportsState × Env :=
  match s.file with
  | none => (s, env)
  | some file =>
    let s := { s with loading := true, error := "", analysis := .null }
    let env := env.send
      { method := "POST", url := "http://127.0.0.1:5002/upload-report",
        body := .form [("file", .file file)] }
    match o with
    | .networkError message => (onError s message, env)
    | .notJson _ message => (onError s message, env)
    | .json _ data =>
      match data.getProp "error" with
      | none => (onError s (P.typeErrorMessage "error"), env)
      | some e =>
        if e.truthy then (onError s (e.toJsString P), env)
        else ({ s with analysis := data, loading := false }, env)

end ReportsPage

/-! ## Contact form -/

/-- The `formData` state of `ContactUs`. -/
structure ContactForm where
  name : String
  email : String
  message : String
  deriving DecidableEq, Repr

/-- React state of `ContactUs`. -/
structure ContactState where
  formData : ContactForm
  submitted : Bool
  deriving DecidableEq, Repr

namespace ContactUs

/-- `handleSubmit` (contact.jsx 12-25): `catch` only logs. -/
def handleSubmit (s : ContactState) (env : Env) (o : FetchOutcome) : ContactState × Env :=
  let env := env.send
    { method := "POST", url := "http://localhost:5000/contact",
      body := .json (.obj [("name", .str s.formData.name),
                           ("email", .str s.formData.email),
                           ("message", .str s.formData.message)]) }
  match o with
  | .networkError _ => (s, env)
  | .notJson _ _ => (s, env)
  | .json _ data =>
    match data.getProp "success" with
    | none => (s, env)
    | some success => if success.truthy then ({ s with submitted := true }, env) else (s, env)

end ContactUs

/-! ## Pattern result -/

/-- The constants `PatternResult` derives from a result (lines 31-42 and 82) and the two
conditions that open the metrics block and the warning (lines 162 and 195). -/
structure ResultView where
  layoutImageUrl : Option String
  fabricWidth : JsVal
  utilization : JsVal
  fabricUsedLength : JsVal
  fabricUsedArea : JsVal
  totalPieceArea : JsVal
  polygonCount : JsVal
  processingTime : JsVal
  showWarning : Bool
  metricsShown : Bool

/-- A button that calls `navigate(target)`. -/
structure NavButton where
  label : String
  target : String
  deriving DecidableEq, Repr

/-- What `PatternResult` renders: the fallback of lines 16-27, the result page, or nothing
because reading a property threw a TypeError. -/
inductive PatternResultView where
  | noResult (heading : String) (text : String) (buttons : List NavButton)
  | result (v : ResultView)
  | typeError

namespace PatternResult

/-- Line 8: `location.state?.result`. -/
def result (locationState : JsVal) : JsVal := locationState.getPropOpt "result"

/-- The fallback of lines 16-27. -/
def fallback : PatternResultView :=
  .noResult "⚠️ No Result Found" "Please go back and run the optimization first."
    [{ label := "🔙 Back to Optimizer", target := "/pattern" }]

/-- Lines 31-42 and 82: every read of a property of `result`; `none` is a TypeError. -/
def derive (P : Platform) (result : JsVal) : Option ResultView := do
  let layoutImage ← result.getProp "layout_image"
  let debugInfo ← result.getProp "debug_info"
  let metrics ← result.getProp "metrics"
  let processingTime ← result.getProp "processing_time_seconds"
  let status ← result.getProp "status"
  pure
    { layoutImageUrl :=
        if layoutImage.truthy then
          some ("http://127.0.0.1:5001/download/" ++ layoutImage.toJsString P)
        else none,
      fabricWidth := (debugInfo.getPropOpt "fabric_width").or (.str "N/A"),
      utilization := (metrics.getPropOpt "utilization_percentage").or (.num 0),
      fabricUsedLength := (metrics.getPropOpt "fabric_used_length").or (.str "N/A"),
      fabricUsedArea := (metrics.getPropOpt "fabric_used_area").or (.str "N/A"),
      totalPieceArea := (metrics.getPropOpt "total_placed_area").or (.str "N/A"),
      polygonCount := (debugInfo.getPropOpt "polygon_count").or (.str "N/A"),
      processingTime := processingTime.or (.str "N/A"),
      showWarning := status.isString "warning",
      metricsShown := metrics.truthy }

/-- The component body (PatternResult.jsx 5-28 and what follows the guard). -/
def render (P : Platform) (locationState : JsVal) : PatternResultView :=
  let r := result locationState
  if r.truthy then
    match derive P r with
    | some v => .result v
    | none => .typeError
  else fallback

end PatternResult

/-! ## Polling timers -/

/-- A registration made by `setInterval`. -/
structure Interval where
  id : Nat
  callback : String
  period : Nat
  deriving DecidableEq, Repr

/-- The timers of the window: the registrations alive and the next id handed out. -/
structure Timers where
  nextId : Nat
  active : List Interval
  deriving DecidableEq, Repr

namespace Timers

/-- No timer registered. -/
def empty : Timers := { nextId := 1, active := [] }

/-- The call `setInterval(callback, period)`: the new registry and the id returned. -/
def setInterval (t : Timers) (callback : String) (period : Nat) : Timers × Nat :=
  ({ nextId := t.nextId + 1,
     active := t.active ++ [{ id := t.nextId, callback := callback, period := period }] },
   t.nextId)

/-- The call `clearInterval(id)`. -/
def clearInterval (t : Timers) (id : Nat) : Timers :=
  { t with active := t.active.filter (fun i => i.id != id) }

/-- Ids handed out so far are below `nextId`. -/
def WellFormed (t : Timers) : Prop := ∀ i ∈ t.active, i.id < t.nextId

end Timers

namespace Page

/-- Every page component. -/
def all : List Page :=
  [.LandingPage, .Dashboard, .About, .Features, .Signup, .ContactUs, .Login, .PatternPage,
   .PatternResult, .TrackerPage, .ReportsPage, .ChatbotPage, .AlertsPage]

/-- The timer side of a page's mount effect: the registry after mount and the cleanup React
runs on unmount. Dashboard.jsx 61-65 and AlertsPage.jsx 59-65 register an interval and
return `() => clearInterval(interval)`; the effects of LandingPage (AOS.init) and ChatbotPage
(scrollIntoView) and the other pages touch no timer and return no cleanup. -/
def mountEffect (p : Page) (t : Timers) : Timers × (Timers → Timers) :=
  match p with
  | .Dashboard =>
    let (t, interval) := t.setInterval "fetchDashboardData" 30000
    (t, fun t => t.clearInterval interval)
  | .AlertsPage =>
    let (t, interval) := t.setInterval "fetchAlerts" 15000
    (t, fun t => t.clearInterval interval)
  | _ => (t, fun t => t)

/-- The registry once the page has been mounted. -/
def mounted (p : Page) (t : Timers) : Timers := (mountEffect p t).1

/-- The registry once the page has been mounted and unmounted again. -/
def unmounted (p : Page) (t : Timers) : Timers := (mountEffect p t).2 (mountEffect p t).1

/-- Whether mounting the page on an idle window registers a periodic timer. -/
def startsTimer (p : Page) : Bool := (mounted p Timers.empty).active.length != 0

/-- Whether a timer is still registered after the page, mounted on an idle window, has been
unmounted. -/
def leavesTimer (p : Page) : Bool := (unmounted p Timers.empty).active.length != 0

end Page

/-! ## Login: where a successful login leads -/

namespace Login

/-- The `from` of line 15: `location.state?.from?.pathname || "/"`. -/
def dest (locationState : JsVal) : JsVal :=
  ((locationState.getPropOpt "from").getPropOpt "pathname").or (.str "/")

/-- `handleLogin` as the component builds it on a render with the given `location.state`:
the handler closes over `from`. A pathname written by the router is a string; any other
truthy value is read through its string form. -/
def onSubmit (P : Platform) (locationState : JsVal) (s : LoginState) (env : Env)
    (o : AxiosOutcome) : Env :=
  handleLogin P ((dest locationState).toJsString P) s env o

end Login

/-! ## Chatbot: a conversation -/

namespace ChatbotPage

/-- The bot message of one call (lines 26-33): the reply of the backend, or the failure
message when the request or the parse fails or the body is `null`. -/
def botMessage (o : FetchOutcome) : ChatMessage :=
  match o with
  | .networkError _ => failureMessage
  | .notJson _ _ => failureMessage
  | .json _ data =>
    match data.getProp "reply" with
    | none => failureMessage
    | some reply => { sender := "bot", text := reply }

/-- A run of `sendMessage` calls, one after the other; each step is the text typed into the
input (`setInput` through `onChange`) before the form is submitted and the outcome of the
request. -/
def run (s : ChatbotState) (env : Env) (steps : List (String × FetchOutcome)) :
    ChatbotState × Env :=
  steps.foldl (fun acc step => sendMessage { acc.1 with input := step.1 } acc.2 step.2)
    (s, env)

end ChatbotPage

/-! ## Pattern optimizer: choosing the file -/

/-- The method `String.prototype.endsWith`. -/
def endsWith (s suffix : String) : Bool := suffix.data.isSuffixOf s.data

namespace PatternPage

/-- The initial state (PatternPage.jsx 9-17). -/
def init : PatternState :=
  { patternFile := none, loading := false, productType := "", fabricWidth := "",
    fabricType := "woven", seamAllowance := "2", allowRotation := true,
    strategy := "genetic" }

/-- `handlePatternChange` (PatternPage.jsx 19-28); `picked` is `e.target.files[0]`, absent
when the picker was cancelled. -/
def handlePatternChange (P : Platform) (s : PatternState) (env : Env)
    (picked : Option JsFile) : PatternState × Env :=
  match picked with
  | none => (s, env)
  | some file =>
    if !endsWith (P.toLowerCase file.name) ".dxf" then
      (s, env.alert "Please upload a DXF file")
    else ({ s with patternFile := some file }, env)

/-- A run of `handlePatternChange` calls. -/
def changes (P : Platform) (s : PatternState) (env : Env) (picks : List (Option JsFile)) :
    PatternState × Env :=
  picks.foldl (fun acc picked => handlePatternChange P acc.1 acc.2 picked) (s, env)

end PatternPage

/-! ## Pattern result: warning and field texts -/

/-- Number built-ins of the engine. IEEE arithmetic is not modelled: the difference of two
finite numbers is whatever the engine returns. -/
structure NumberOps where
  /-- StringToNumber: the numeric value of a string, `NaN` when it has none. -/
  stringToNumber : String → JsVal
  /-- The operator `-` on two finite numbers. -/
  subtract : Rat → Rat → JsVal

/-- ToNumber. -/
def JsVal.toNumber (P : Platform) (N : NumberOps) : JsVal → JsVal
  | .undefined => .nan
  | .null => .num 0
  | .bool true => .num 1
  | .bool false => .num 0
  | .num q => .num q
  | .nan => .nan
  | .str s => N.stringToNumber s
  | .arr items => N.stringToNumber ((JsVal.arr items).toJsString P)
  | .obj props => N.stringToNumber ((JsVal.obj props).toJsString P)

/-- The operator `a - b`. -/
def JsVal.minus (P : Platform) (N : NumberOps) (a b : JsVal) : JsVal :=
  match a.toNumber P N, b.toNumber P N with
  | .num x, .num y => N.subtract x y
  | _, _ => .nan

/-- The texts of the six fields with a placeholder (lines 117, 121, 127, 176, 182, 188);
the polygon count is handed to React as it is. The used length, the used area and the total
area sit inside the metrics block `{result.metrics && (...)}` of line 162: `none` says that
the block, and with it the field, is not printed. -/
structure FieldTexts where
  fabricWidth : String
  polygonCount : JsVal
  processingTime : String
  fabricUsedLength : Option String
  fabricUsedArea : Option String
  totalPieceArea : Option String

namespace PatternResult

/-- Lines 162 and 195: the warning sits inside the metrics block. -/
def warningShown (v : ResultView) : Bool := v.metricsShown && v.showWarning

/-- The value shown as utilization in the warning (line 198). -/
def shownUtilization (v : ResultView) : JsVal := v.utilization

/-- The value shown as waste in the warning (line 201): `100 - utilization`. -/
def shownWaste (P : Platform) (N : NumberOps) (v : ResultView) : JsVal :=
  JsVal.minus P N (.num 100) v.utilization

/-- The pattern `x !== "N/A" ? x + unit : "N/A"` of a template literal. -/
def withUnit (P : Platform) (value : JsVal) (unit : String) : String :=
  if value.isString "N/A" then "N/A" else value.toJsString P ++ unit

/-- What the metrics block prints for one of its fields (lines 162, 176, 182, 188): nothing
unless `result.metrics` is truthy. -/
def inMetricsBlock (v : ResultView) (text : String) : Option String :=
  if v.metricsShown then some text else none

/-- The texts of the fields that fall back to "N/A": fabric width, polygon count and
processing time in the basic info (lines 117, 121, 127), the three others inside the
metrics block. -/
def fieldTexts (P : Platform) (v : ResultView) : FieldTexts :=
  { fabricWidth := withUnit P v.fabricWidth " mm",
    polygonCount := v.polygonCount,
    processingTime := withUnit P v.processingTime " seconds",
    fabricUsedLength := inMetricsBlock v (withUnit P v.fabricUsedLength " mm"),
    fabricUsedArea := inMetricsBlock v (withUnit P v.fabricUsedArea " mm²"),
    totalPieceArea := inMetricsBlock v (withUnit P v.totalPieceArea " mm²") }

end PatternResult

/-! ## Report analyzer: a session -/

/-- What happens on the report page: a file is chosen (or the picker cancelled), or an
analysis is run to completion with the given outcome. -/
inductive ReportsEvent where
  | upload (picked : Option JsFile)
  | analyze (o : FetchOutcome)

namespace ReportsPage

/-- One event applied to the page. -/
def step (P : Platform) (acc : ReportsState × Env) : ReportsEvent → ReportsState × Env
  | .upload picked => (handleFileUpload acc.1 picked, acc.2)
  | .analyze o => handleAnalyze P acc.1 acc.2 o

/-- A run of events. -/
def run (P : Platform) (s : ReportsState) (env : Env) (events : List ReportsEvent) :
    ReportsState × Env :=
  events.foldl (step P) (s, env)

end ReportsPage

/-! ## Tracker: a session -/

/-- The six inputs of the tracker form. -/
inductive TrackerField where
  | productType | co2 | water | energy | pollutant | waste
  deriving DecidableEq, Repr

/-- What happens on the tracker page: an input is edited, the tone is changed, or a
submission runs to completion with the given outcome. -/
inductive TrackerEvent where
  | input (field : TrackerField) (value : String)
  | tone (value : String)
  | track (o : FetchOutcome)

namespace TrackerPage

/-- The initial state (TrackerPage.jsx 22-32). -/
def init : TrackerState :=
  { productType := "", co2 := "", water := "", energy := "", pollutant := "", waste := "",
    result := none, chartData := [], tone := "professional", apiError := none,
    loading := false }

/-- `handleInputChange(setter)` (lines 34-38) for the setter of the given field. -/
def handleInputChange (s : TrackerState) (field : TrackerField) (value : String) :
    TrackerState :=
  let s :=
    match field with
    | .productType => { s with productType := value }
    | .co2 => { s with co2 := value }
    | .water => { s with water := value }
    | .energy => { s with energy := value }
    | .pollutant => { s with pollutant := value }
    | .waste => { s with waste := value }
  { s with apiError := none, result := none }

/-- Whether a submission from state `s` with outcome `o` runs its `try` block to the end:
all six fields are filled in, the response is ok and its body is one whose properties can
be read. -/
def succeeds (s : TrackerState) (o : FetchOutcome) : Bool :=
  s.productType != "" && s.co2 != "" && s.water != "" && s.energy != "" &&
  s.pollutant != "" && s.waste != "" &&
  match o with
  | .json true data => !data.nullish
  | _ => false

/-- One event applied to the page. -/
def step (P : Platform) (acc : TrackerState × Env) : TrackerEvent → TrackerState × Env
  | .input field value => (handleInputChange acc.1 field value, acc.2)
  | .tone value => ({ acc.1 with tone := value }, acc.2)
  | .track o => handleTrack P acc.1 acc.2 o

/-- A run of events. -/
def run (P : Platform) (s : TrackerState) (env : Env) (events : List TrackerEvent) :
    TrackerState × Env :=
  events.foldl (step P) (s, env)

/-- The number of submissions of a run that succeed. -/
def successes (P : Platform) (acc : TrackerState × Env) : List TrackerEvent → Nat
  | [] => 0
  | .track o :: rest =>
    (if succeeds acc.1 o then 1 else 0) + successes P (step P acc (.track o)) rest
  | e :: rest => successes P (step P acc e) rest

end TrackerPage

/-- The wording of the spec for a field of the result page with a placeholder: the page
shows the backend value (followed by its unit) exactly when that value is truthy, and "N/A"
otherwise. `shown` is the constant the component derives, `text` what it prints where the
field is printed. A backend value that is the string "N/A" itself prints as "N/A", with no
unit. -/
def DisplaysOrNA (P : Platform) (backend shown : JsVal) (text unit : String) : Prop :=
  (backend.truthy = true →
    shown = backend ∧ (backend.isString "N/A" = false → text = backend.toJsString P ++ unit)
    ∧ (backend.isString "N/A" = true → text = "N/A"))
  ∧ (backend.truthy = false → shown = .str "N/A" ∧ text = "N/A")

/-- The wording of the spec for a numeric field of the /predict request: `field` is the
number parsed from the input, or 0 when the input does not parse to a non-zero number.
`parsed` is what `parseFloat` returns on the input. -/
def ParsedOrZero (parsed field : JsVal) : Prop :=
  (∀ q : Rat, parsed = .num q → q ≠ 0 → field = .num q)
  ∧ (parsed = .nan ∨ parsed = .num 0 → field = .num 0)

/-! ## A concrete platform for evaluating the handlers -/

/-- A platform on which the handlers can be evaluated: integers print in decimal and other
numbers as numerator and denominator, lower-casing is ASCII, `parseFloat` and `Date` read
decimal integers. -/
def demoPlatform : Platform where
  numberToString q :=
    if q.den = 1 then toString q.num else toString q.num ++ "/" ++ toString q.den
  toLowerCase s := String.mk (s.data.map Char.toLower)
  parseFloat s := match s.toInt? with
    | some n => .num n
    | none => .nan
  dateOf v := match v with
    | .str s => s.toInt?
    | .num q => some (q.num.tdiv q.den)
    | _ => none
  typeErrorMessage name := "Cannot read properties of null (reading " ++ name ++ ")"

/-- Number built-ins to go with `demoPlatform`: strings read as decimal integers, exact
subtraction. -/
def demoNumberOps : NumberOps where
  stringToNumber s := match s.toInt? with
    | some n => .num n
    | none => .nan
  subtract x y := .num (x - y)

/-- Six fetches one minute apart, the third with a body that lacks the metrics. -/
def sampleFetches : List (String × JsVal) :=
  [ ("09:00", .obj [("co2", .num 10), ("water", .num 70), ("waste", .num 3)]),
    ("09:01", .obj [("co2", .num 11), ("water", .num 71), ("waste", .num 3)]),
    ("09:02", .obj []),
    ("09:03", .obj [("co2", .num 13), ("water", .num 73), ("waste", .num 3)]),
    ("09:04", .obj [("co2", .num 14), ("water", .num 74), ("waste", .num 3)]),
    ("09:05", .obj [("co2", .num 15), ("water", .num 75), ("waste", .num 3)]) ]

/-- A tracker form with all six fields filled in. -/
def sampleTracker : TrackerState :=
  { productType := "Cotton", co2 := "12", water := "300", energy := "abc",
    pollutant := "-2", waste := "5", result := none, chartData := [],
    tone := "professional", apiError := none, loading := false }

/-- A report page with a file chosen. -/
def sampleReports : ReportsState :=
  { file := some ⟨"report.pdf", "%PDF"⟩, analysis := .null, loading := false, error := "" }

/-- A pattern form with a file and a fabric width. -/
def samplePattern : PatternState :=
  { patternFile := some ⟨"shirt.dxf", "0 SECTION"⟩, loading := false, productType := "",
    fabricWidth := "1500", fabricType := "woven", seamAllowance := "2",
    allowRotation := true, strategy := "genetic" }

/-- A navigation state whose result has a status and nothing else. -/
def bareResultState : JsVal := .obj [("result", .obj [("status", .str "success")])]

/-- A result with status "warning" and a utilization of 62. -/
def sampleResultState : JsVal :=
  .obj [("result", .obj
    [("status", .str "warning"),
     ("metrics", .obj [("utilization_percentage", .num 62), ("fabric_used_length", .num 0)]),
     ("debug_info", .obj [("fabric_width", .num 1500)])])]

/-! ## Lemmas on the list operations -/

theorem trim_eq_empty_of_blank (s : String) (h : ∀ c ∈ s.toList, isWhiteSpace c = true) :
    trim s = "" := by
  have h1 : s.toList.dropWhile isWhiteSpace = [] := List.dropWhile_eq_nil_iff.mpr h
  simp only [trim, h1, List.rdropWhile_nil]

theorem sliceLast_length {α : Type} (n : Nat) (xs : List α) :
    (sliceLast n xs).length = min xs.length n := by
  simp [sliceLast]
  omega

theorem sliceLast_sliceLast_append {α : Type} (n : Nat) (xs ys : List α) :
    sliceLast n (sliceLast n xs ++ ys) = sliceLast n (xs ++ ys) := by
  rcases Nat.lt_or_ge n xs.length with h | h
  · have hlen : (List.drop (xs.length - n) xs).length = n := by
      simp; omega
    unfold sliceLast
    rw [List.drop_append_eq_append_drop, List.drop_append_eq_append_drop, List.drop_drop]
    simp only [List.length_append, hlen]
    congr 1
    · congr 1; omega
    · congr 1; omega
  · have : sliceLast n xs = xs := by
      simp [sliceLast, Nat.sub_eq_zero_of_le h]
    rw [this]

theorem sortInsert_perm {α : Type} (cmp : α → α → Option Int) (a : α) (l : List α) :
    (sortInsert cmp a l).Perm (a :: l) := by
  induction l with
  | nil => exact List.Perm.refl _
  | cons b l ih =>
    unfold sortInsert
    cases hc : cmp a b with
    | none => exact List.Perm.refl _
    | some v =>
      by_cases hv : v > 0
      · simp only [hv, if_true]
        exact (List.Perm.cons b ih).trans (List.Perm.swap a b l)
      · simp only [hv, if_false]
        exact List.Perm.refl _

theorem jsSort_perm {α : Type} (cmp : α → α → Option Int) (l : List α) :
    (jsSort cmp l).Perm l := by
  induction l with
  | nil => exact List.Perm.refl _
  | cons a l ih =>
    unfold jsSort
    exact (sortInsert_perm cmp a _).trans (List.Perm.cons a ih)

/-- Inserting into a list that is in non-increasing key order keeps it so, when the
comparator is the key difference on the items involved. -/
theorem sortInsert_pairwise {α : Type} (cmp : α → α → Option Int) (key : α → Int)
    (good : α → Prop) (hcmp : ∀ a b, good a → good b → cmp a b = some (key b - key a))
    (a : α) (l : List α) (ha : good a) (hl : ∀ x ∈ l, good x)
    (hs : l.Pairwise (fun x y => key y ≤ key x)) :
    (sortInsert cmp a l).Pairwise (fun x y => key y ≤ key x) := by
  induction l with
  | nil => simp [sortInsert]
  | cons b l ih =>
    have hb : good b := hl b (List.mem_cons_self b l)
    have hl2 : ∀ x ∈ l, good x := fun x hx => hl x (List.mem_cons_of_mem b hx)
    rw [List.pairwise_cons] at hs
    unfold sortInsert
    rw [hcmp a b ha hb]
    by_cases hv : key b - key a > 0
    · simp only [hv, if_true]
      rw [List.pairwise_cons]
      refine ⟨?_, ih hl2 hs.2⟩
      intro y hy
      rcases List.mem_cons.mp ((sortInsert_perm cmp a l).mem_iff.mp hy) with rfl | hy2
      · omega
      · exact hs.1 y hy2
    · simp only [hv, if_false]
      rw [List.pairwise_cons]
      refine ⟨?_, List.pairwise_cons.mpr hs⟩
      intro y hy
      rcases List.mem_cons.mp hy with rfl | hy2
      · omega
      · have := hs.1 y hy2
        omega

theorem jsSort_pairwise {α : Type} (cmp : α → α → Option Int) (key : α → Int)
    (good : α → Prop) (hcmp : ∀ a b, good a → good b → cmp a b = some (key b - key a))
    (l : List α) (hl : ∀ x ∈ l, good x) :
    (jsSort cmp l).Pairwise (fun x y => key y ≤ key x) := by
  induction l with
  | nil => simp [jsSort]
  | cons a l ih =>
    unfold jsSort
    have hl2 : ∀ x ∈ l, good x := fun x hx => hl x (List.mem_cons_of_mem a hx)
    refine sortInsert_pairwise cmp key good hcmp a _ (hl a (List.mem_cons_self a l)) ?_
      (ih hl2)
    intro x hx
    exact hl2 x ((jsSort_perm cmp l).mem_iff.mp hx)

/-- A fetch that resolves with a body other than `null` appends its entry to the chart and
keeps the last five. -/
theorem fetchDashboardData_chart (P : Platform) (time : String) (s : DashboardState)
    (env : Env) (data : JsVal) (h : data.nullish = false) :
    (Dashboard.fetchDashboardData P time s env (.resolved data)).1.chartData
      = sliceLast 5 (s.chartData ++ [Dashboard.entryOf P time data]) := by
  cases data <;>
    simp_all [Dashboard.fetchDashboardData, Dashboard.entryOf, JsVal.getProp,
      JsVal.getPropOpt, JsVal.nullish]

theorem foldl_fetchDashboardData_chart (P : Platform) (fetches : List (String × JsVal))
    (h : ∀ f ∈ fetches, f.2.nullish = false) (acc : DashboardState × Env)
    (hacc : acc.1.chartData.length ≤ 5) :
    (fetches.foldl
      (fun (acc : DashboardState × Env) f =>
        Dashboard.fetchDashboardData P f.1 acc.1 acc.2 (.resolved f.2)) acc).1.chartData
      = sliceLast 5 (acc.1.chartData ++ fetches.map (fun f => Dashboard.entryOf P f.1 f.2)) := by
  induction fetches generalizing acc with
  | nil =>
    simp only [List.foldl_nil, List.map_nil, List.append_nil, sliceLast]
    rw [Nat.sub_eq_zero_of_le hacc, List.drop_zero]
  | cons f fs ih =>
    have hf : f.2.nullish = false := h f (List.mem_cons_self f fs)
    have hfs : ∀ g ∈ fs, g.2.nullish = false := fun g hg => h g (List.mem_cons_of_mem f hg)
    have hstep := fetchDashboardData_chart P f.1 acc.1 acc.2 f.2 hf
    have hlen : (Dashboard.fetchDashboardData P f.1 acc.1 acc.2
        (.resolved f.2)).1.chartData.length ≤ 5 := by
      rw [hstep, sliceLast_length]
      omega
    rw [List.foldl_cons, ih hfs _ hlen, hstep, sliceLast_sliceLast_append]
    simp

theorem ReportsPage.onError_error_ne_empty (s : ReportsState) (message : String) :
    (ReportsPage.onError s message).error ≠ "" := by
  unfold ReportsPage.onError
  by_cases h : message = ""
  · simp [h]
  · simp [h]

theorem JsVal.nullish_eq_false_of_truthy (v : JsVal) (h : v.truthy = true) :
    v.nullish = false := by
  cases v <;> simp_all [JsVal.truthy, JsVal.nullish]

theorem JsVal.getProp_of_not_nullish (v : JsVal) (name : String) (h : v.nullish = false) :
    v.getProp name = some (v.getPropOpt name) := by
  cases v <;> simp_all [JsVal.getProp, JsVal.getPropOpt, JsVal.nullish]

theorem JsVal.getPropOpt_obj_singleton (name : String) (v : JsVal) :
    (JsVal.obj [(name, v)]).getPropOpt name = v := by
  simp [JsVal.getPropOpt, JsVal.getProp, JsVal.lookup]

/-- On a truthy result every property read of `PatternResult` goes through. -/
theorem PatternResult.derive_isSome (P : Platform) (r : JsVal) (h : r.truthy = true) :
    ∃ v, PatternResult.derive P r = some v := by
  have hn := JsVal.nullish_eq_false_of_truthy r h
  simp [PatternResult.derive, JsVal.getProp_of_not_nullish r _ hn]

theorem append_ne_dashes (x suffix : String) (hne : suffix.data ≠ [])
    (hlast : suffix.data.getLast? ≠ some '-') : x ++ suffix ≠ "--" := by
  intro h
  have h2 : (x ++ suffix).data.getLast? = ("--" : String).data.getLast? := by rw [h]
  rw [String.data_append, List.getLast?_append_of_ne_nil _ hne] at h2
  exact hlast (h2.trans (by decide))

/-- A fetch that succeeds replaces the metrics by the three fields of the body, each
defaulted to the placeholder when nullish, and clears `loading`. -/
theorem fetchDashboardData_metrics_of_success (P : Platform) (time : String)
    (s : DashboardState) (env : Env) (r : JsVal) (hr : r.nullish = false) :
    (Dashboard.fetchDashboardData P time s env (.resolved r)).1.metrics
      = { carbonEmission := (r.getPropOpt "co2").coalesce (.str "--"),
          waterUsage := (r.getPropOpt "water").coalesce (.str "--"),
          fabricWaste := (r.getPropOpt "waste").coalesce (.str "--") }
    ∧ (Dashboard.fetchDashboardData P time s env (.resolved r)).1.loading = false := by
  simp [Dashboard.fetchDashboardData, JsVal.getProp_of_not_nullish r _ hr]

/-- A fetch that fails leaves the metrics alone and clears `loading`. -/
theorem fetchDashboardData_metrics_of_failure (P : Platform) (time : String)
    (s : DashboardState) (env : Env) (o : AxiosOutcome) (ho : Dashboard.succeeds o = false) :
    (Dashboard.fetchDashboardData P time s env o).1.metrics = s.metrics
    ∧ (Dashboard.fetchDashboardData P time s env o).1.loading = false := by
  cases o with
  | rejected response => simp [Dashboard.fetchDashboardData]
  | resolved data =>
    cases data <;> simp_all [Dashboard.succeeds, Dashboard.fetchDashboardData, JsVal.getProp,
      JsVal.nullish]

theorem run_metrics_of_failures (P : Platform) (steps : List (String × AxiosOutcome))
    (hsteps : ∀ p ∈ steps, Dashboard.succeeds p.2 = false) (s : DashboardState) (env : Env)
    (hs : s.loading = false) :
    (Dashboard.run P s env steps).1.metrics = s.metrics
    ∧ (Dashboard.run P s env steps).1.loading = false := by
  induction steps generalizing s env with
  | nil => exact ⟨rfl, hs⟩
  | cons p ps ih =>
    have hp := fetchDashboardData_metrics_of_failure P p.1 s env p.2
      (hsteps p (List.mem_cons_self p ps))
    have hps : ∀ q ∈ ps, Dashboard.succeeds q.2 = false :=
      fun q hq => hsteps q (List.mem_cons_of_mem p hq)
    have := ih hps (Dashboard.fetchDashboardData P p.1 s env p.2).1
      (Dashboard.fetchDashboardData P p.1 s env p.2).2 hp.2
    simp only [Dashboard.run, List.foldl_cons] at this ⊢
    exact ⟨this.1.trans hp.1, this.2⟩

theorem statValue_coalesce (P : Platform) (v : JsVal) (suffix : String)
    (hv : v.isString "--" = false) :
    Dashboard.statValue P (v.coalesce (.str "--")) suffix
      = if v.nullish then "--" else v.toJsString P ++ suffix := by
  by_cases hn : v.nullish = true
  · simp [Dashboard.statValue, JsVal.coalesce, hn, JsVal.isString]
  · simp [Dashboard.statValue, JsVal.coalesce, hn, hv]

theorem parsedOrZero_or (parsed : JsVal) : ParsedOrZero parsed (parsed.or (.num 0)) := by
  constructor
  · intro q hq hne
    subst hq
    simp [JsVal.or, JsVal.truthy, hne]
  · rintro (h | h) <;> subst h <;> simp [JsVal.or, JsVal.truthy]

/-- With the six fields filled in, `handleTrack` sends the same one request whatever the
answer turns out to be. -/
theorem handleTrack_env_of_filled (P : Platform) (s : TrackerState) (env : Env)
    (o : FetchOutcome)
    (h1 : s.productType ≠ "") (h2 : s.co2 ≠ "") (h3 : s.water ≠ "") (h4 : s.energy ≠ "")
    (h5 : s.pollutant ≠ "") (h6 : s.waste ≠ "") :
    (TrackerPage.handleTrack P s env o).2 = env.send
      { method := "POST", url := "http://127.0.0.1:5000/predict",
        body := .json (.obj
          [("product_type", .str s.productType),
           ("greenhouse_gas_emissions", (P.parseFloat s.co2).or (.num 0)),
           ("water_consumption", (P.parseFloat s.water).or (.num 0)),
           ("energy_consumption", (P.parseFloat s.energy).or (.num 0)),
           ("pollutants_emitted", (P.parseFloat s.pollutant).or (.num 0)),
           ("waste_generation", (P.parseFloat s.waste).or (.num 0)),
           ("tone", .str s.tone)]) } := by
  cases o with
  | networkError message => simp [TrackerPage.handleTrack, h1, h2, h3, h4, h5, h6]
  | notJson ok message => simp [TrackerPage.handleTrack, h1, h2, h3, h4, h5, h6]
  | json ok b =>
    cases ok with
    | true =>
      cases hb : b.getProp "eco_level" <;>
        simp [TrackerPage.handleTrack, h1, h2, h3, h4, h5, h6, hb]
    | false =>
      cases hb : b.getProp "error" <;>
        simp [TrackerPage.handleTrack, h1, h2, h3, h4, h5, h6, hb]

theorem Timers.clearInterval_setInterval (t : Timers) (callback : String) (period : Nat)
    (ht : t.WellFormed) :
    ((t.setInterval callback period).1.clearInterval (t.setInterval callback period).2).active
      = t.active := by
  simp only [Timers.setInterval, Timers.clearInterval, List.filter_append]
  have hkeep : t.active.filter (fun i => i.id != t.nextId) = t.active := by
    apply List.filter_eq_self.mpr
    intro i hi
    have := ht i hi
    simp
    omega
  rw [hkeep]
  simp

theorem ChatbotPage.botMessage_sender (o : FetchOutcome) :
    (ChatbotPage.botMessage o).sender = "bot" := by
  cases o with
  | networkError message => rfl
  | notJson ok message => rfl
  | json ok data =>
    simp only [ChatbotPage.botMessage]
    cases data.getProp "reply" <;> rfl

/-- A call with non-blank input appends the user's text and one bot message and clears the
input. -/
theorem ChatbotPage.sendMessage_of_nonblank (s : ChatbotState) (env : Env) (o : FetchOutcome)
    (h : trim s.input ≠ "") :
    (ChatbotPage.sendMessage s env o).1
      = { messages := s.messages
            ++ [{ sender := "user", text := .str s.input }, ChatbotPage.botMessage o],
          input := "" } := by
  cases o with
  | networkError message => simp [ChatbotPage.sendMessage, ChatbotPage.botMessage, h]
  | notJson ok message => simp [ChatbotPage.sendMessage, ChatbotPage.botMessage, h]
  | json ok data =>
    cases hd : data.getProp "reply" <;>
      simp [ChatbotPage.sendMessage, ChatbotPage.botMessage, h, hd]

theorem ChatbotPage.run_messages (steps : List (String × FetchOutcome))
    (h : ∀ st ∈ steps, trim st.1 ≠ "") (s : ChatbotState) (env : Env) :
    (ChatbotPage.run s env steps).1.messages
      = s.messages ++ steps.flatMap (fun st =>
          [{ sender := "user", text := .str st.1 }, ChatbotPage.botMessage st.2]) := by
  induction steps generalizing s env with
  | nil => simp [ChatbotPage.run]
  | cons st rest ih =>
    have hst : trim st.1 ≠ "" := h st (List.mem_cons_self st rest)
    have hrest : ∀ x ∈ rest, trim x.1 ≠ "" := fun x hx => h x (List.mem_cons_of_mem st hx)
    have hstep := ChatbotPage.sendMessage_of_nonblank { s with input := st.1 } env st.2 hst
    have := ih hrest (ChatbotPage.sendMessage { s with input := st.1 } env st.2).1
      (ChatbotPage.sendMessage { s with input := st.1 } env st.2).2
    simp only [ChatbotPage.run, List.foldl_cons] at this ⊢
    rw [this, hstep]
    simp [List.flatMap_cons]

theorem ChatbotPage.run_input (steps : List (String × FetchOutcome))
    (h : ∀ st ∈ steps, trim st.1 ≠ "") (hne : steps ≠ []) (s : ChatbotState) (env : Env) :
    (ChatbotPage.run s env steps).1.input = "" := by
  induction steps generalizing s env with
  | nil => exact absurd rfl hne
  | cons st rest ih =>
    have hst : trim st.1 ≠ "" := h st (List.mem_cons_self st rest)
    have hrest : ∀ x ∈ rest, trim x.1 ≠ "" := fun x hx => h x (List.mem_cons_of_mem st hx)
    have hstep := ChatbotPage.sendMessage_of_nonblank { s with input := st.1 } env st.2 hst
    by_cases hr : rest = []
    · subst hr
      simp only [ChatbotPage.run, List.foldl_cons, List.foldl_nil]
      rw [hstep]
    · have := ih hrest hr (ChatbotPage.sendMessage { s with input := st.1 } env st.2).1
        (ChatbotPage.sendMessage { s with input := st.1 } env st.2).2
      simpa only [ChatbotPage.run, List.foldl_cons] using this

theorem ChatbotPage.senders_of_steps (steps : List (String × FetchOutcome)) :
    (steps.flatMap (fun st =>
        ([{ sender := "user", text := .str st.1 }, ChatbotPage.botMessage st.2]
          : List ChatMessage))).map ChatMessage.sender
      = (List.replicate steps.length ["user", "bot"]).flatten := by
  induction steps with
  | nil => rfl
  | cons st rest ih =>
    simp only [List.flatMap_cons, List.map_append, List.map_cons, List.map_nil,
      List.length_cons, List.replicate_succ, List.flatten_cons, ih,
      ChatbotPage.botMessage_sender]

/-- One `handlePatternChange` keeps the file invariant. -/
theorem PatternPage.handlePatternChange_invariant (P : Platform) (s : PatternState) (env : Env)
    (picked : Option JsFile)
    (hs : ∀ f, s.patternFile = some f → endsWith (P.toLowerCase f.name) ".dxf" = true) :
    ∀ f, (PatternPage.handlePatternChange P s env picked).1.patternFile = some f →
      endsWith (P.toLowerCase f.name) ".dxf" = true := by
  intro f hf
  cases picked with
  | none => exact hs f hf
  | some file =>
    by_cases hd : endsWith (P.toLowerCase file.name) ".dxf" = true
    · simp [PatternPage.handlePatternChange, hd] at hf
      subst hf
      exact hd
    · simp [PatternPage.handlePatternChange, hd] at hf
      exact hs f hf

theorem PatternPage.changes_invariant (P : Platform) (picks : List (Option JsFile))
    (s : PatternState) (env : Env)
    (hs : ∀ f, s.patternFile = some f → endsWith (P.toLowerCase f.name) ".dxf" = true) :
    ∀ f, (PatternPage.changes P s env picks).1.patternFile = some f →
      endsWith (P.toLowerCase f.name) ".dxf" = true := by
  induction picks generalizing s env with
  | nil => exact hs
  | cons picked rest ih =>
    have := ih (PatternPage.handlePatternChange P s env picked).1
      (PatternPage.handlePatternChange P s env picked).2
      (PatternPage.handlePatternChange_invariant P s env picked hs)
    simpa only [PatternPage.changes, List.foldl_cons] using this

/-- The product type never reaches what `handleOptimize` does outside the page state. -/
theorem PatternPage.handleOptimize_env_productType (P : Platform) (s : PatternState)
    (env : Env) (o : FetchOutcome) (productType : String) :
    (PatternPage.handleOptimize P { s with productType := productType } env o).2
      = (PatternPage.handleOptimize P s env o).2 := by
  unfold PatternPage.handleOptimize
  cases hf : s.patternFile with
  | none => simp [hf]
  | some file =>
    by_cases hw : s.fabricWidth = ""
    · simp [hf, hw]
    · cases o with
      | networkError message => simp [hf, hw, PatternPage.onError]
      | notJson ok message => simp [hf, hw, PatternPage.onError]
      | json ok b =>
        cases ok with
        | true => simp [hf, hw]
        | false =>
          cases hb : b.getProp "error" <;> simp [hf, hw, hb, PatternPage.onError]

theorem PatternPage.handleOptimize_requests (P : Platform) (s : PatternState) (env : Env)
    (o : FetchOutcome) (file : JsFile) (hf : s.patternFile = some file)
    (hw : s.fabricWidth ≠ "") :
    (PatternPage.handleOptimize P s env o).2.requests = env.requests ++
      [{ method := "POST", url := "http://127.0.0.1:5001/optimize",
         body := .form
           [("dxf_file", .file file),
            ("fabric_width", .text s.fabricWidth),
            ("fabric_type", .text s.fabricType),
            ("seam_allowance", .text s.seamAllowance),
            ("allow_rotation", .text (if s.allowRotation then "true" else "false")),
            ("strategy", .text s.strategy)] }] := by
  cases o with
  | networkError message =>
    simp [PatternPage.handleOptimize, hf, hw, PatternPage.onError, Env.send, Env.alert]
  | notJson ok message =>
    simp [PatternPage.handleOptimize, hf, hw, PatternPage.onError, Env.send, Env.alert]
  | json ok b =>
    cases ok with
    | true => simp [PatternPage.handleOptimize, hf, hw, Env.send, Env.navigate]
    | false =>
      cases hb : b.getProp "error" <;>
        simp [PatternPage.handleOptimize, hf, hw, hb, PatternPage.onError, Env.send,
          Env.alert]

/-- On a truthy result the constants of `PatternResult` are these. -/
theorem PatternResult.derive_eq (P : Platform) (r : JsVal) (h : r.truthy = true) :
    PatternResult.derive P r = some
      { layoutImageUrl :=
          if (r.getPropOpt "layout_image").truthy then
            some ("http://127.0.0.1:5001/download/" ++ (r.getPropOpt "layout_image").toJsString P)
          else none,
        fabricWidth :=
          ((r.getPropOpt "debug_info").getPropOpt "fabric_width").or (.str "N/A"),
        utilization :=
          ((r.getPropOpt "metrics").getPropOpt "utilization_percentage").or (.num 0),
        fabricUsedLength :=
          ((r.getPropOpt "metrics").getPropOpt "fabric_used_length").or (.str "N/A"),
        fabricUsedArea :=
          ((r.getPropOpt "metrics").getPropOpt "fabric_used_area").or (.str "N/A"),
        totalPieceArea :=
          ((r.getPropOpt "metrics").getPropOpt "total_placed_area").or (.str "N/A"),
        polygonCount :=
          ((r.getPropOpt "debug_info").getPropOpt "polygon_count").or (.str "N/A"),
        processingTime := (r.getPropOpt "processing_time_seconds").or (.str "N/A"),
        showWarning := (r.getPropOpt "status").isString "warning",
        metricsShown := (r.getPropOpt "metrics").truthy } := by
  have hn := JsVal.nullish_eq_false_of_truthy r h
  simp [PatternResult.derive, JsVal.getProp_of_not_nullish r _ hn]

theorem displaysOrNA_or (P : Platform) (backend : JsVal) (unit : String) :
    DisplaysOrNA P backend (backend.or (.str "N/A"))
      (PatternResult.withUnit P (backend.or (.str "N/A")) unit) unit := by
  constructor
  · intro ht
    refine ⟨by simp [JsVal.or, ht], ?_, ?_⟩
    · intro hna
      simp [PatternResult.withUnit, JsVal.or, ht, hna]
    · intro hna
      simp [PatternResult.withUnit, JsVal.or, ht, hna]
  · intro hf
    simp [PatternResult.withUnit, JsVal.or, hf, JsVal.isString]

/-- One event keeps "analysis set implies no error". -/
theorem ReportsPage.step_invariant (P : Platform) (acc : ReportsState × Env)
    (e : ReportsEvent) (h : acc.1.analysis = .null ∨ acc.1.error = "") :
    (ReportsPage.step P acc e).1.analysis = .null ∨ (ReportsPage.step P acc e).1.error = "" := by
  cases e with
  | upload picked => exact Or.inl rfl
  | analyze o =>
    simp only [ReportsPage.step, ReportsPage.handleAnalyze]
    cases hf : acc.1.file with
    | none => simpa using h
    | some file =>
      cases o with
      | networkError message => exact Or.inl rfl
      | notJson ok message => exact Or.inl rfl
      | json ok b =>
        cases hb : b.getProp "error" with
        | none => exact Or.inl (by simp [hb, ReportsPage.onError])
        | some e =>
          by_cases ht : e.truthy = true
          · exact Or.inl (by simp [hb, ht, ReportsPage.onError])
          · exact Or.inr (by simp [hb, ht])

theorem ReportsPage.run_invariant (P : Platform) (events : List ReportsEvent)
    (acc : ReportsState × Env) (h : acc.1.analysis = .null ∨ acc.1.error = "") :
    (events.foldl (ReportsPage.step P) acc).1.analysis = .null
      ∨ (events.foldl (ReportsPage.step P) acc).1.error = "" := by
  induction events generalizing acc with
  | nil => exact h
  | cons e rest ih =>
    rw [List.foldl_cons]
    exact ih _ (ReportsPage.step_invariant P acc e h)

/-- A submission that does not succeed leaves `result` and `chartData` alone. -/
theorem TrackerPage.handleTrack_frame (P : Platform) (s : TrackerState) (env : Env)
    (o : FetchOutcome) (h : TrackerPage.succeeds s o = false) :
    (TrackerPage.handleTrack P s env o).1.result = s.result
    ∧ (TrackerPage.handleTrack P s env o).1.chartData = s.chartData := by
  by_cases hfill : s.productType = "" ∨ s.co2 = "" ∨ s.water = "" ∨ s.energy = ""
      ∨ s.pollutant = "" ∨ s.waste = ""
  · simp [TrackerPage.handleTrack, hfill]
  · cases o with
    | networkError message => simp [TrackerPage.handleTrack, hfill, TrackerPage.onError]
    | notJson ok message => simp [TrackerPage.handleTrack, hfill, TrackerPage.onError]
    | json ok b =>
      cases ok with
      | false =>
        cases hb : b.getProp "error" <;>
          simp [TrackerPage.handleTrack, hfill, hb, TrackerPage.onError]
      | true =>
        have hnull : b.nullish = true := by
          simp only [not_or] at hfill
          simpa [TrackerPage.succeeds, hfill] using h
        have hb : b.getProp "eco_level" = none := by
          cases b <;> simp_all [JsVal.getProp, JsVal.nullish]
        simp [TrackerPage.handleTrack, hfill, hb, TrackerPage.onError]

/-- A submission that succeeds appends one point and stores the figures that were sent. -/
theorem TrackerPage.handleTrack_success (P : Platform) (s : TrackerState) (env : Env)
    (o : FetchOutcome) (h : TrackerPage.succeeds s o = true) :
    (TrackerPage.handleTrack P s env o).1.chartData
      = s.chartData ++ [{ name := s.productType, CO2 := (P.parseFloat s.co2).or (.num 0),
                          Water := (P.parseFloat s.water).or (.num 0) }]
    ∧ ∃ res, (TrackerPage.handleTrack P s env o).1.result = some res
        ∧ res.co2 = (P.parseFloat s.co2).or (.num 0)
        ∧ res.water = (P.parseFloat s.water).or (.num 0) := by
  cases o with
  | networkError message => simp [TrackerPage.succeeds] at h
  | notJson ok message => simp [TrackerPage.succeeds] at h
  | json ok b =>
    cases ok with
    | false => simp [TrackerPage.succeeds] at h
    | true =>
      simp only [TrackerPage.succeeds, Bool.and_eq_true, bne_iff_ne, ne_eq,
        Bool.not_eq_true'] at h
      obtain ⟨⟨⟨⟨⟨⟨h1, h2⟩, h3⟩, h4⟩, h5⟩, h6⟩, hb⟩ := h
      have hg := JsVal.getProp_of_not_nullish b "eco_level" hb
      simp [TrackerPage.handleTrack, h1, h2, h3, h4, h5, h6, hg]

theorem TrackerPage.step_chart_length (P : Platform) (acc : TrackerState × Env)
    (e : TrackerEvent) :
    (TrackerPage.step P acc e).1.chartData.length
      = acc.1.chartData.length + TrackerPage.successes P acc [e] := by
  cases e with
  | input field value =>
    cases field <;> simp [TrackerPage.step, TrackerPage.handleInputChange,
      TrackerPage.successes]
  | tone value => simp [TrackerPage.step, TrackerPage.successes]
  | track o =>
    by_cases hs : TrackerPage.succeeds acc.1 o = true
    · simp [TrackerPage.step, TrackerPage.successes, hs,
        (TrackerPage.handleTrack_success P acc.1 acc.2 o hs).1]
    · have hs2 : TrackerPage.succeeds acc.1 o = false := by simpa using hs
      simp [TrackerPage.step, TrackerPage.successes, hs2,
        (TrackerPage.handleTrack_frame P acc.1 acc.2 o hs2).2]

theorem TrackerPage.run_chart_length (P : Platform) (events : List TrackerEvent)
    (acc : TrackerState × Env) :
    (events.foldl (TrackerPage.step P) acc).1.chartData.length
      = acc.1.chartData.length + TrackerPage.successes P acc events := by
  induction events generalizing acc with
  | nil => simp [TrackerPage.successes]
  | cons e rest ih =>
    rw [List.foldl_cons, ih, TrackerPage.step_chart_length]
    cases e <;> simp [TrackerPage.successes]
    omega

/-! ## Properties -/

/-- C1. `Login.handleLogin`: when the login request resolves with a body `d` whose `token`
can be read, local storage afterwards is the old storage with key "token" set to (the
string form of) `d.token`; when the request is rejected, whether by a network error or by
a status outside 2xx, local storage is exactly what it was. -/
theorem login_stores_token_only_on_success (P : Platform) (dest : String) (s : LoginState)
    (env : Env) (d token : JsVal) (hd : d.getProp "token" = some token) :
    (Login.handleLogin P dest s env (.resolved d)).storage
        = env.storage.setItem "token" (token.toJsString P)
    ∧ (Login.handleLogin P dest s env (.resolved d)).storage.getItem "token"
        = some (token.toJsString P)
    ∧ ∀ response, (Login.handleLogin P dest s env (.rejected response)).storage
        = env.storage := by
  refine ⟨?_, ?_, ?_⟩
  · simp [Login.handleLogin, hd, Env.send, Env.toast, Env.navigateAfter]
  · simp [Login.handleLogin, hd, Env.send, Env.toast, Env.navigateAfter, Storage.getItem,
      Storage.setItem]
  · intro response
    simp [Login.handleLogin, Login.onError, Env.send, Env.toast]

/-- A login answered with a token leaves that token in storage. -/
theorem login_stores_token_only_on_success_witness :
    (JsVal.obj [("token", .str "abc")]).getProp "token" = some (.str "abc")
    ∧ (Login.handleLogin demoPlatform "/" ⟨"A@b.c", "pw", false⟩ (Env.init Storage.empty)
        (.resolved (.obj [("token", .str "abc")]))).storage.getItem "token" = some "abc" :=
  ⟨rfl, (login_stores_token_only_on_success demoPlatform "/" ⟨"A@b.c", "pw", false⟩
    (Env.init Storage.empty) (.obj [("token", .str "abc")]) (.str "abc") rfl).2.1⟩

/-- C2. Session gate: at each of the protected paths /dashboard, /about and /features the
router renders a redirect to /login when local storage holds no token, and the page of
that path when a token is stored. -/
theorem protected_paths_gate (env : Env) :
    (env.storage.getItem "token" = none →
      App.render env "/dashboard" = .redirect "/login"
      ∧ App.render env "/about" = .redirect "/login"
      ∧ App.render env "/features" = .redirect "/login")
    ∧ (∀ t, env.storage.getItem "token" = some t →
      App.render env "/dashboard" = .page .Dashboard
      ∧ App.render env "/about" = .page .About
      ∧ App.render env "/features" = .page .Features) := by
  constructor
  · intro h
    simp [App.render, App.routes, App.element, PrivateRoute, h]
  · intro t h
    simp [App.render, App.routes, App.element, PrivateRoute, h]

/-- The dashboard path redirects on an empty storage and renders once a token is stored. -/
theorem protected_paths_gate_witness :
    (Env.init Storage.empty).storage.getItem "token" = none
    ∧ App.render (Env.init Storage.empty) "/dashboard" = .redirect "/login"
    ∧ App.render (Env.init (Storage.empty.setItem "token" "abc")) "/dashboard"
        = .page .Dashboard :=
  ⟨rfl, ((protected_paths_gate (Env.init Storage.empty)).1 rfl).1,
    ((protected_paths_gate (Env.init (Storage.empty.setItem "token" "abc"))).2 "abc" rfl).1⟩

/-- C3, as the spec states it, fails: after a signup call that succeeds, with a body that
even offers a token, the "token" key is absent from a storage that was empty before. -/
theorem signup_success_sets_no_token :
    (Signup.handleSignup demoPlatform ⟨"eve", "eve@example.org", "pw", false⟩
      (Env.init Storage.empty)
      (.resolved (.obj [("token", .str "abc")]))).storage.getItem "token" = none := by
  rfl

/-- C3, amended. `Signup.handleSignup` never writes local storage: whatever the outcome of
the signup call, storage afterwards is what it was; a success raises the success toast and
schedules a navigation to /login, where logging in is what sets the token. -/
theorem signup_leaves_storage (P : Platform) (s : SignupState) (env : Env)
    (o : AxiosOutcome) :
    (Signup.handleSignup P s env o).storage = env.storage
    ∧ ∀ data, (Signup.handleSignup P s env (.resolved data)).timeouts
        = env.timeouts ++ [{ delay := 2500, path := "/login" }] := by
  constructor
  · cases o <;> simp [Signup.handleSignup, Signup.onError, Env.send, Env.toast,
      Env.navigateAfter]
  · intro data
    simp [Signup.handleSignup, Env.send, Env.toast, Env.navigateAfter]

/-- C4. `Navbar.handleLogout`: from any local storage, after logout the "token" key is
absent, `isLoggedIn` computes to false, every other key reads as before, and the one
navigation issued goes to /login. -/
theorem logout_clears_token_only (env : Env) :
    (Navbar.handleLogout env).storage.getItem "token" = none
    ∧ Navbar.isLoggedIn (Navbar.handleLogout env) = false
    ∧ (∀ k, k ≠ "token" →
        (Navbar.handleLogout env).storage.getItem k = env.storage.getItem k)
    ∧ (Navbar.handleLogout env).navigations
        = env.navigations ++ [{ path := "/login", state := .undefined }] := by
  refine ⟨?_, ?_, ?_, ?_⟩
  · simp [Navbar.handleLogout, Env.navigate, Storage.getItem, Storage.removeItem]
  · simp [Navbar.isLoggedIn, Navbar.handleLogout, Env.navigate, Storage.getItem,
      Storage.removeItem]
  · intro k hk
    simp [Navbar.handleLogout, Env.navigate, Storage.getItem, Storage.removeItem, hk]
  · simp [Navbar.handleLogout, Env.navigate]

/-- Logging out of a storage with a token and a theme drops the token and keeps the theme. -/
theorem logout_clears_token_only_witness :
    (Navbar.handleLogout (Env.init ((Storage.empty.setItem "token" "abc").setItem
        "theme" "dark"))).storage.getItem "token" = none
    ∧ (Navbar.handleLogout (Env.init ((Storage.empty.setItem "token" "abc").setItem
        "theme" "dark"))).storage.getItem "theme" = some "dark" :=
  ⟨(logout_clears_token_only _).1,
    ((logout_clears_token_only (Env.init ((Storage.empty.setItem "token" "abc").setItem
        "theme" "dark"))).2.2.1 "theme" (by decide)).trans rfl⟩

/-- C5. Dashboard chart window: starting from the empty chart, after any run of n fetches
that succeed (each resolves with a body other than `null`), `chartData` is exactly the list
of entries of the last min(n, 5) fetches in fetch order; so it has min(n, 5) points, never
more than 5, and the points left out are the oldest. -/
theorem chart_holds_last_five (P : Platform) (fetches : List (String × JsVal))
    (h : ∀ f ∈ fetches, f.2.nullish = false) :
    (Dashboard.afterFetches P fetches).chartData
      = (fetches.drop (fetches.length - min fetches.length 5)).map
          (fun f => Dashboard.entryOf P f.1 f.2)
    ∧ (Dashboard.afterFetches P fetches).chartData.length = min fetches.length 5
    ∧ (Dashboard.afterFetches P fetches).chartData.length ≤ 5 := by
  have key : (Dashboard.afterFetches P fetches).chartData
      = sliceLast 5 (fetches.map (fun f => Dashboard.entryOf P f.1 f.2)) := by
    unfold Dashboard.afterFetches
    rw [foldl_fetchDashboardData_chart P fetches h (Dashboard.init, Env.init Storage.empty)
      (by simp [Dashboard.init])]
    simp [Dashboard.init]
  have hsub : fetches.length - min fetches.length 5 = fetches.length - 5 := by omega
  refine ⟨?_, ?_, ?_⟩
  · rw [key, hsub, sliceLast, List.length_map, List.map_drop]
  · rw [key, sliceLast_length, List.length_map]
  · rw [key, sliceLast_length, List.length_map]
    omega

/-- The chart after the six sample fetches shows the five latest, oldest first. -/
theorem chart_holds_last_five_witness :
    (∀ f ∈ sampleFetches, f.2.nullish = false)
    ∧ (Dashboard.afterFetches demoPlatform sampleFetches).chartData.map ChartEntry.time
        = ["09:01", "09:02", "09:03", "09:04", "09:05"] :=
  ⟨by decide,
    (congrArg (List.map ChartEntry.time)
      (chart_holds_last_five demoPlatform sampleFetches (by decide)).1).trans rfl⟩

/-- C6. `AlertsPage.fetchAlerts`: when both requests succeed with lists `manual` and `auto`
in which every alert carries a valid `createdAt` (the value is one the comparator takes,
that is truthy, and `Date` reads it), the `messages` set by the fetch are in non-increasing
order of `createdAt`: latest first. -/
theorem alerts_latest_first (P : Platform) (now : Int) (s : AlertsState) (env : Env)
    (manual auto : List JsObject)
    (hvalid : ∀ a ∈ manual ++ auto,
      (JsVal.lookup "createdAt" a).truthy = true
      ∧ ∃ t, P.dateOf (JsVal.lookup "createdAt" a) = some t) :
    List.Pairwise
      (fun m m' => ∃ t t',
        P.dateOf (m.getPropOpt "createdAt") = some t
        ∧ P.dateOf (m'.getPropOpt "createdAt") = some t'
        ∧ t' ≤ t)
      (AlertsPage.fetchAlerts P now s env (.body (some auto))
        (.body (some manual))).1.messages := by
  have hcmp : ∀ a b : JsObject,
      ((JsVal.lookup "createdAt" a).truthy = true
        ∧ ∃ t, P.dateOf (JsVal.lookup "createdAt" a) = some t) →
      ((JsVal.lookup "createdAt" b).truthy = true
        ∧ ∃ t, P.dateOf (JsVal.lookup "createdAt" b) = some t) →
      AlertsPage.compare P now a b
        = some ((P.dateOf (JsVal.lookup "createdAt" b)).getD 0
            - (P.dateOf (JsVal.lookup "createdAt" a)).getD 0) := by
    rintro a b ⟨ha, ta, hta⟩ ⟨hb, tb, htb⟩
    simp [AlertsPage.compare, AlertsPage.timeOf, ha, hb, hta, htb]
  have hsorted := jsSort_pairwise (AlertsPage.compare P now)
    (fun a => (P.dateOf (JsVal.lookup "createdAt" a)).getD 0) _ hcmp (manual ++ auto) hvalid
  have hmem : ∀ a ∈ jsSort (AlertsPage.compare P now) (manual ++ auto),
      ∃ t, P.dateOf (JsVal.lookup "createdAt" a) = some t :=
    fun a ha => (hvalid a ((jsSort_perm _ _).mem_iff.mp ha)).2
  simp only [AlertsPage.fetchAlerts, AlertsPage.combine]
  rw [List.pairwise_map]
  refine (List.Pairwise.and_mem.mp hsorted).imp ?_
  rintro a b ⟨ha, hb, hab⟩
  obtain ⟨ta, hta⟩ := hmem a ha
  obtain ⟨tb, htb⟩ := hmem b hb
  refine ⟨ta, tb, ?_, ?_, ?_⟩
  · simpa [JsVal.getPropOpt, JsVal.getProp] using hta
  · simpa [JsVal.getPropOpt, JsVal.getProp] using htb
  · simpa [hta, htb] using hab

/-- Three alerts with numeric time stamps end up latest first. -/
theorem alerts_latest_first_witness :
    (∀ a ∈ [[("title", JsVal.str "m"), ("createdAt", JsVal.num 100)]]
          ++ [[("title", JsVal.str "a"), ("createdAt", JsVal.num 300)],
              [("title", JsVal.str "b"), ("createdAt", JsVal.num 200)]],
      (JsVal.lookup "createdAt" a).truthy = true
      ∧ ∃ t, demoPlatform.dateOf (JsVal.lookup "createdAt" a) = some t)
    ∧ List.Pairwise
      (fun m m' => ∃ t t',
        demoPlatform.dateOf (m.getPropOpt "createdAt") = some t
        ∧ demoPlatform.dateOf (m'.getPropOpt "createdAt") = some t'
        ∧ t' ≤ t)
      (AlertsPage.fetchAlerts demoPlatform 1000 ⟨[], "", true⟩ (Env.init Storage.empty)
        (.body (some [[("title", JsVal.str "a"), ("createdAt", JsVal.num 300)],
                      [("title", JsVal.str "b"), ("createdAt", JsVal.num 200)]]))
        (.body (some [[("title", JsVal.str "m"), ("createdAt", JsVal.num 100)]]))).1.messages :=
  ⟨by
      intro a ha
      simp only [List.cons_append, List.nil_append, List.mem_cons, List.mem_singleton,
        List.not_mem_nil, or_false] at ha
      rcases ha with rfl | rfl | rfl <;> exact ⟨by decide, _, rfl⟩,
    alerts_latest_first demoPlatform 1000 ⟨[], "", true⟩ (Env.init Storage.empty) _ _ (by
      intro a ha
      simp only [List.cons_append, List.nil_append, List.mem_cons, List.mem_singleton,
        List.not_mem_nil, or_false] at ha
      rcases ha with rfl | rfl | rfl <;> exact ⟨by decide, _, rfl⟩)⟩

/-- C7. `AlertsPage.fetchAlerts`: for every pair of lists `manual` and `auto` the two
requests return, the `messages` set by the fetch are a permutation of `manual ++ auto`:
nothing dropped, nothing added, duplicates kept (every alert occurs as often as before),
and the length is the sum of the two lengths. -/
theorem alerts_permutation (P : Platform) (now : Int) (s : AlertsState) (env : Env)
    (manual auto : List JsObject) :
    List.Perm
      (AlertsPage.fetchAlerts P now s env (.body (some auto)) (.body (some manual))).1.messages
      ((manual ++ auto).map JsVal.obj)
    ∧ (AlertsPage.fetchAlerts P now s env (.body (some auto))
        (.body (some manual))).1.messages.length = manual.length + auto.length := by
  have hperm : ((AlertsPage.fetchAlerts P now s env (.body (some auto))
      (.body (some manual))).1.messages).Perm ((manual ++ auto).map JsVal.obj) := by
    simp only [AlertsPage.fetchAlerts, AlertsPage.combine]
    exact (jsSort_perm _ _).map _
  refine ⟨hperm, ?_⟩
  rw [hperm.length_eq, List.length_map, List.length_append]

/-- C8. `TrackerPage.handleTrack`: whenever at least one of the six fields (product type,
CO2, water, energy, pollutant, waste) is empty, no HTTP request is issued, `result` and
`chartData` are what they were, and `loading` ends false. -/
theorem track_blocked_on_empty_field (P : Platform) (s : TrackerState) (env : Env)
    (o : FetchOutcome)
    (h : s.productType = "" ∨ s.co2 = "" ∨ s.water = "" ∨ s.energy = "" ∨ s.pollutant = ""
      ∨ s.waste = "") :
    (TrackerPage.handleTrack P s env o).2.requests = env.requests
    ∧ (TrackerPage.handleTrack P s env o).1.result = s.result
    ∧ (TrackerPage.handleTrack P s env o).1.chartData = s.chartData
    ∧ (TrackerPage.handleTrack P s env o).1.loading = false := by
  simp [TrackerPage.handleTrack, h, Env.toast]

/-- A form with everything but the waste figure filled in sends nothing. -/
theorem track_blocked_on_empty_field_witness :
    (("Cotton" = "" ∨ "12.5" = "" ∨ "300" = "" ∨ "40" = "" ∨ "2" = "" ∨ "" = "")
    ∧ (TrackerPage.handleTrack demoPlatform
        { productType := "Cotton", co2 := "12.5", water := "300", energy := "40",
          pollutant := "2", waste := "", result := none, chartData := [],
          tone := "professional", apiError := none, loading := false }
        (Env.init Storage.empty) (.networkError "offline")).2.requests = []) :=
  ⟨by decide,
    (track_blocked_on_empty_field demoPlatform
        { productType := "Cotton", co2 := "12.5", water := "300", energy := "40",
          pollutant := "2", waste := "", result := none, chartData := [],
          tone := "professional", apiError := none, loading := false }
        (Env.init Storage.empty) (.networkError "offline") (by decide)).1⟩

/-- C9. `PatternPage.handleOptimize`: whenever no pattern file is selected or the fabric
width is empty, no HTTP request is issued, no navigation happens, and the page state,
`loading` included, is left as it was, so `loading` stays false. -/
theorem optimize_blocked_on_missing_input (P : Platform) (s : PatternState) (env : Env)
    (o : FetchOutcome) (h : s.patternFile = none ∨ s.fabricWidth = "") :
    (PatternPage.handleOptimize P s env o).2.requests = env.requests
    ∧ (PatternPage.handleOptimize P s env o).2.navigations = env.navigations
    ∧ (PatternPage.handleOptimize P s env o).1 = s
    ∧ (s.loading = false → (PatternPage.handleOptimize P s env o).1.loading = false) := by
  have hs : (PatternPage.handleOptimize P s env o).1 = s
      ∧ (PatternPage.handleOptimize P s env o).2.requests = env.requests
      ∧ (PatternPage.handleOptimize P s env o).2.navigations = env.navigations := by
    unfold PatternPage.handleOptimize
    cases hf : s.patternFile with
    | none => simp [Env.alert]
    | some f =>
      have hw : s.fabricWidth = "" := by
        rcases h with h | h
        · rw [hf] at h; cases h
        · exact h
      simp [hw, Env.alert]
  refine ⟨hs.2.1, hs.2.2, hs.1, ?_⟩
  intro hl
  rw [hs.1]
  exact hl

/-- A form with a file but no fabric width sends nothing and stays idle. -/
theorem optimize_blocked_on_missing_input_witness :
    ((some (JsFile.mk "shirt.dxf" "0 SECTION") = none ∨ "" = "")
    ∧ (PatternPage.handleOptimize demoPlatform
        { patternFile := some ⟨"shirt.dxf", "0 SECTION"⟩, loading := false,
          productType := "", fabricWidth := "", fabricType := "woven",
          seamAllowance := "2", allowRotation := true, strategy := "genetic" }
        (Env.init Storage.empty) (.json true (.obj []))).2.requests = []) :=
  ⟨Or.inr rfl,
    (optimize_blocked_on_missing_input demoPlatform
        { patternFile := some ⟨"shirt.dxf", "0 SECTION"⟩, loading := false,
          productType := "", fabricWidth := "", fabricType := "woven",
          seamAllowance := "2", allowRotation := true, strategy := "genetic" }
        (Env.init Storage.empty) (.json true (.obj [])) (Or.inr rfl)).1⟩

/-- C10. Blank messages are never sent: for every input that is empty or consists of white
space only, `ChatbotPage.sendMessage` and `AlertsPage.handleSend` return the page state
(message list and draft text) and the environment as they were; in particular no HTTP
request is issued. -/
theorem blank_message_not_sent (input : String)
    (hblank : ∀ c ∈ input.toList, isWhiteSpace c = true)
    (chat : List ChatMessage) (alerts : List JsVal) (loading : Bool) (env : Env)
    (o : FetchOutcome) :
    ChatbotPage.sendMessage { messages := chat, input := input } env o
      = ({ messages := chat, input := input }, env)
    ∧ (ChatbotPage.sendMessage { messages := chat, input := input } env o).2.requests
      = env.requests
    ∧ AlertsPage.handleSend { messages := alerts, manualMsg := input, loading := loading }
        env o
      = ({ messages := alerts, manualMsg := input, loading := loading }, env)
    ∧ (AlertsPage.handleSend { messages := alerts, manualMsg := input, loading := loading }
        env o).2.requests = env.requests := by
  have ht := trim_eq_empty_of_blank input hblank
  simp [ChatbotPage.sendMessage, AlertsPage.handleSend, ht]

/-- A draft of a space, a tab and a line break is not sent by either page. -/
theorem blank_message_not_sent_witness :
    (∀ c ∈ " \t\n".toList, isWhiteSpace c = true)
    ∧ (ChatbotPage.sendMessage { messages := ChatbotPage.init.messages, input := " \t\n" }
        (Env.init Storage.empty) (.json true (.obj [("reply", .str "hi")]))).2.requests = []
    ∧ (AlertsPage.handleSend { messages := [], manualMsg := " \t\n", loading := false }
        (Env.init Storage.empty)
        (.json true (.obj [("success", .bool true)]))).2.requests = [] :=
  ⟨by decide,
    (blank_message_not_sent " \t\n" (by decide) ChatbotPage.init.messages [] false
      (Env.init Storage.empty) (.json true (.obj [("reply", .str "hi")]))).2.1,
    (blank_message_not_sent " \t\n" (by decide) [] [] false
      (Env.init Storage.empty) (.json true (.obj [("success", .bool true)]))).2.2.2⟩

/-- C11, as the spec states it, fails for Dashboard and for Contact: when the request is
rejected, no toast and no alert is raised, the dashboard cards show the placeholders they
showed before with an empty chart, and the contact form is left as it was. It also fails
for Reports and for Chatbot on a response outside 2xx that carries a JSON body: Reports
keeps the body as the analysis with no error, and Chatbot appends a bot message whose text
is the missing `reply` of that body, not an error message. -/
theorem failure_not_surfaced_on_dashboard_and_contact :
    (Dashboard.fetchDashboardData demoPlatform "09:00" Dashboard.init
        (Env.init Storage.empty) (.rejected none)).2.toasts = []
    ∧ (Dashboard.fetchDashboardData demoPlatform "09:00" Dashboard.init
        (Env.init Storage.empty) (.rejected none)).2.alerts = []
    ∧ Dashboard.cards demoPlatform (Dashboard.fetchDashboardData demoPlatform "09:00"
        Dashboard.init (Env.init Storage.empty) (.rejected none)).1 = ["--", "--", "--"]
    ∧ (Dashboard.fetchDashboardData demoPlatform "09:00" Dashboard.init
        (Env.init Storage.empty) (.rejected none)).1.chartData.length = 0
    ∧ (ContactUs.handleSubmit ⟨⟨"Eve", "eve@example.org", "hello"⟩, false⟩
        (Env.init Storage.empty) (.networkError "Failed to fetch")).1
        = ⟨⟨"Eve", "eve@example.org", "hello"⟩, false⟩
    ∧ (ContactUs.handleSubmit ⟨⟨"Eve", "eve@example.org", "hello"⟩, false⟩
        (Env.init Storage.empty) (.networkError "Failed to fetch")).2.toasts = []
    ∧ (ContactUs.handleSubmit ⟨⟨"Eve", "eve@example.org", "hello"⟩, false⟩
        (Env.init Storage.empty) (.networkError "Failed to fetch")).2.alerts = []
    ∧ (ReportsPage.handleAnalyze demoPlatform sampleReports (Env.init Storage.empty)
        (.json false (.obj [("detail", .str "Internal Server Error")]))).1.error = ""
    ∧ (ReportsPage.handleAnalyze demoPlatform sampleReports (Env.init Storage.empty)
        (.json false (.obj [("detail", .str "Internal Server Error")]))).2.alerts = []
    ∧ (ChatbotPage.sendMessage { messages := ChatbotPage.init.messages, input := "hello" }
        (Env.init Storage.empty)
        (.json false (.obj [("detail", .str "Internal Server Error")]))).1.messages
      = ChatbotPage.init.messages
          ++ [{ sender := "user", text := .str "hello" },
              { sender := "bot", text := .undefined }] := by
  refine ⟨rfl, rfl, ?_, rfl, rfl, rfl, rfl, rfl, rfl, rfl⟩
  decide

/-- C11, amended. What a failed HTTP request shows depends on the page and on the kind of
failure. Login and Signup raise an error toast whenever axios rejects (network error or a
status outside 2xx). Tracker sets `apiError` and Pattern raises an alert for a network
error, for a body that is not JSON and for a response outside 2xx with a JSON body. Reports
sets a non-empty `error`, and Chatbot appends the fixed failure message after the user's
text, for a network error and for a body that is not JSON; on a response outside 2xx with a
JSON body, Reports sets an error only when the body is `null` or carries a truthy `error`
(otherwise `error` stays empty and the body becomes the analysis) and Chatbot appends the
failure message only when the body is `null` (otherwise it appends the `reply` of the body
as an ordinary bot message). Dashboard, Alerts and Contact surface no failure of any kind:
whatever the outcome no toast and no alert is raised, and the view state is what it was,
`loading` cleared, when the dashboard request is rejected, when of the two requests of the
alerts fetch the auto one is rejected or returns a body that is not JSON or the manual one
is rejected, and when the request that sends an alert or the contact form is rejected or
returns a body that is not JSON. Tracker, Pattern, Reports and Chatbot are taken with a
form that passes their own presence check. -/
theorem failure_feedback_by_page (P : Platform) (env : Env) :
    (∀ dest s response, ∃ text,
      (Login.handleLogin P dest s env (.rejected response)).toasts
        = env.toasts ++ [{ kind := .error, text := text }])
    ∧ (∀ s response, ∃ text,
      (Signup.handleSignup P s env (.rejected response)).toasts
        = env.toasts ++ [{ kind := .error, text := text }])
    ∧ (∀ (s : TrackerState),
      s.productType ≠ "" → s.co2 ≠ "" → s.water ≠ "" → s.energy ≠ "" → s.pollutant ≠ "" →
      s.waste ≠ "" →
      (∀ message, (TrackerPage.handleTrack P s env (.networkError message)).1.apiError
          = some ("❌ " ++ message))
      ∧ (∀ ok message, (TrackerPage.handleTrack P s env (.notJson ok message)).1.apiError
          = some ("❌ " ++ message))
      ∧ (∀ b, ∃ text, (TrackerPage.handleTrack P s env (.json false b)).1.apiError
          = some ("❌ " ++ text)))
    ∧ (∀ (s : PatternState) file,
      s.patternFile = some file → s.fabricWidth ≠ "" →
      (∀ message, (PatternPage.handleOptimize P s env (.networkError message)).2.alerts
          = env.alerts ++ ["Error during optimization: " ++ message])
      ∧ (∀ ok message, (PatternPage.handleOptimize P s env (.notJson ok message)).2.alerts
          = env.alerts ++ ["Error during optimization: " ++ message])
      ∧ (∀ b, ∃ text, (PatternPage.handleOptimize P s env (.json false b)).2.alerts
          = env.alerts ++ ["Error during optimization: " ++ text]))
    ∧ (∀ (s : ReportsState) file,
      s.file = some file →
      (∀ message, (ReportsPage.handleAnalyze P s env (.networkError message)).1.error ≠ "")
      ∧ (∀ ok message, (ReportsPage.handleAnalyze P s env (.notJson ok message)).1.error ≠ "")
      ∧ (∀ b, b.getProp "error" = none →
          (ReportsPage.handleAnalyze P s env (.json false b)).1.error ≠ "")
      ∧ (∀ b e, b.getProp "error" = some e → e.truthy = true →
          (ReportsPage.handleAnalyze P s env (.json false b)).1.error ≠ "")
      ∧ (∀ b e, b.getProp "error" = some e → e.truthy = false →
          (ReportsPage.handleAnalyze P s env (.json false b)).1.error = ""
          ∧ (ReportsPage.handleAnalyze P s env (.json false b)).1.analysis = b))
    ∧ (∀ (s : ChatbotState),
      trim s.input ≠ "" →
      (∀ message, (ChatbotPage.sendMessage s env (.networkError message)).1.messages
          = s.messages ++ [{ sender := "user", text := .str s.input },
                           ChatbotPage.failureMessage])
      ∧ (∀ ok message, (ChatbotPage.sendMessage s env (.notJson ok message)).1.messages
          = s.messages ++ [{ sender := "user", text := .str s.input },
                           ChatbotPage.failureMessage])
      ∧ (∀ b, b.getProp "reply" = none →
          (ChatbotPage.sendMessage s env (.json false b)).1.messages
            = s.messages ++ [{ sender := "user", text := .str s.input },
                             ChatbotPage.failureMessage])
      ∧ (∀ b reply, b.getProp "reply" = some reply →
          (ChatbotPage.sendMessage s env (.json false b)).1.messages
            = s.messages ++ [{ sender := "user", text := .str s.input },
                             { sender := "bot", text := reply }]))
    ∧ (∀ time (s : DashboardState) o,
      (Dashboard.fetchDashboardData P time s env o).2.toasts = env.toasts
      ∧ (Dashboard.fetchDashboardData P time s env o).2.alerts = env.alerts
      ∧ (Dashboard.succeeds o = false →
          (Dashboard.fetchDashboardData P time s env o).1 = { s with loading := false }))
    ∧ (∀ now (s : AlertsState) autoReply manualReply,
      (AlertsPage.fetchAlerts P now s env autoReply manualReply).2.toasts = env.toasts
      ∧ (AlertsPage.fetchAlerts P now s env autoReply manualReply).2.alerts = env.alerts)
    ∧ (∀ now (s : AlertsState) manualReply,
      (AlertsPage.fetchAlerts P now s env .networkError manualReply).1
          = { s with loading := false }
      ∧ (AlertsPage.fetchAlerts P now s env .notJson manualReply).1
          = { s with loading := false })
    ∧ (∀ now (s : AlertsState) autoAlerts,
      (AlertsPage.fetchAlerts P now s env (.body autoAlerts) .networkError).1
          = { s with loading := false })
    ∧ (∀ (s : AlertsState) o,
      (AlertsPage.handleSend s env o).2.toasts = env.toasts
      ∧ (AlertsPage.handleSend s env o).2.alerts = env.alerts)
    ∧ (∀ (s : AlertsState) message ok,
      (AlertsPage.handleSend s env (.networkError message)).1 = s
      ∧ (AlertsPage.handleSend s env (.notJson ok message)).1 = s)
    ∧ (∀ (s : ContactState) o,
      (ContactUs.handleSubmit s env o).2.toasts = env.toasts
      ∧ (ContactUs.handleSubmit s env o).2.alerts = env.alerts)
    ∧ (∀ (s : ContactState) message ok,
      (ContactUs.handleSubmit s env (.networkError message)).1 = s
      ∧ (ContactUs.handleSubmit s env (.notJson ok message)).1 = s) := by
  refine ⟨?_, ?_, ?_, ?_, ?_, ?_, ?_, ?_, ?_, ?_, ?_, ?_, ?_, ?_⟩
  · intro dest s response
    exact ⟨_, rfl⟩
  · intro s response
    exact ⟨_, rfl⟩
  · intro s h1 h2 h3 h4 h5 h6
    refine ⟨?_, ?_, ?_⟩
    · intro message
      simp [TrackerPage.handleTrack, TrackerPage.onError, h1, h2, h3, h4, h5, h6]
    · intro ok message
      simp [TrackerPage.handleTrack, TrackerPage.onError, h1, h2, h3, h4, h5, h6]
    · intro b
      cases hb : b.getProp "error" with
      | none =>
        exact ⟨P.typeErrorMessage "error", by
          simp [TrackerPage.handleTrack, TrackerPage.onError, h1, h2, h3, h4, h5, h6, hb]⟩
      | some e =>
        exact ⟨(e.or (.str "Prediction failed")).toJsString P, by
          simp [TrackerPage.handleTrack, TrackerPage.onError, h1, h2, h3, h4, h5, h6, hb]⟩
  · intro s file hf hw
    refine ⟨?_, ?_, ?_⟩
    · intro message
      simp [PatternPage.handleOptimize, PatternPage.onError, hf, hw, Env.send, Env.alert]
    · intro ok message
      simp [PatternPage.handleOptimize, PatternPage.onError, hf, hw, Env.send, Env.alert]
    · intro b
      cases hb : b.getProp "error" with
      | none =>
        exact ⟨P.typeErrorMessage "error", by
          simp [PatternPage.handleOptimize, PatternPage.onError, hf, hw, hb, Env.send,
            Env.alert]⟩
      | some e =>
        exact ⟨(e.or (.str "Optimization failed")).toJsString P, by
          simp [PatternPage.handleOptimize, PatternPage.onError, hf, hw, hb, Env.send,
            Env.alert]⟩
  · intro s file hf
    refine ⟨?_, ?_, ?_, ?_, ?_⟩
    · intro message
      simp only [ReportsPage.handleAnalyze, hf]
      exact ReportsPage.onError_error_ne_empty _ _
    · intro ok message
      simp only [ReportsPage.handleAnalyze, hf]
      exact ReportsPage.onError_error_ne_empty _ _
    · intro b hb
      simp only [ReportsPage.handleAnalyze, hf, hb]
      exact ReportsPage.onError_error_ne_empty _ _
    · intro b e hb ht
      simp only [ReportsPage.handleAnalyze, hf, hb, ht, if_true]
      exact ReportsPage.onError_error_ne_empty _ _
    · intro b e hb ht
      simp [ReportsPage.handleAnalyze, hf, hb, ht]
  · intro s hin
    refine ⟨?_, ?_, ?_, ?_⟩
    · intro message
      simp [ChatbotPage.sendMessage, hin]
    · intro ok message
      simp [ChatbotPage.sendMessage, hin]
    · intro b hb
      simp [ChatbotPage.sendMessage, hin, hb]
    · intro b reply hb
      simp [ChatbotPage.sendMessage, hin, hb]
  · intro time s o
    refine ⟨?_, ?_, ?_⟩
    · cases o with
      | rejected response => simp [Dashboard.fetchDashboardData, Env.send]
      | resolved data => cases data <;> simp [Dashboard.fetchDashboardData, Env.send,
          JsVal.getProp]
    · cases o with
      | rejected response => simp [Dashboard.fetchDashboardData, Env.send]
      | resolved data => cases data <;> simp [Dashboard.fetchDashboardData, Env.send,
          JsVal.getProp]
    · intro ho
      cases o with
      | rejected response => simp [Dashboard.fetchDashboardData]
      | resolved data =>
        cases data <;> simp_all [Dashboard.succeeds, Dashboard.fetchDashboardData,
          JsVal.getProp, JsVal.nullish]
  · intro now s autoReply manualReply
    cases autoReply with
    | networkError => exact ⟨rfl, rfl⟩
    | notJson => exact ⟨rfl, rfl⟩
    | body autoAlerts =>
      cases manualReply with
      | networkError => exact ⟨rfl, rfl⟩
      | notJson => cases autoAlerts <;> exact ⟨rfl, rfl⟩
      | body manualAlerts => cases manualAlerts <;> cases autoAlerts <;> exact ⟨rfl, rfl⟩
  · intro now s manualReply
    exact ⟨rfl, rfl⟩
  · intro now s autoAlerts
    rfl
  · intro s o
    by_cases hb : trim s.manualMsg = ""
    · simp [AlertsPage.handleSend, hb]
    · cases o with
      | networkError message => simp [AlertsPage.handleSend, hb, Env.send]
      | notJson ok message => simp [AlertsPage.handleSend, hb, Env.send]
      | json ok data =>
        cases hs : data.getProp "success" with
        | none => simp [AlertsPage.handleSend, hb, hs, Env.send]
        | some success =>
          by_cases ht : success.truthy = true
          · simp [AlertsPage.handleSend, hb, hs, ht, Env.send]
          · simp [AlertsPage.handleSend, hb, hs, ht, Env.send]
  · intro s message ok
    by_cases hb : trim s.manualMsg = ""
    · simp [AlertsPage.handleSend, hb]
    · simp [AlertsPage.handleSend, hb]
  · intro s o
    cases o with
    | networkError message => simp [ContactUs.handleSubmit, Env.send]
    | notJson ok message => simp [ContactUs.handleSubmit, Env.send]
    | json ok data =>
      cases hs : data.getProp "success" with
      | none => simp [ContactUs.handleSubmit, hs, Env.send]
      | some success =>
        by_cases ht : success.truthy = true
        · simp [ContactUs.handleSubmit, hs, ht, Env.send]
        · simp [ContactUs.handleSubmit, hs, ht, Env.send]
  · intro s message ok
    simp [ContactUs.handleSubmit]

/-- On the filled sample form a dropped connection and a 500 answer with a JSON body both
end in `apiError`; on the report page a 500 answer that carries an `error` text sets a
non-empty `error`, and a chat question answered with a 500 and an empty JSON object gets that
body's missing reply as the bot message. -/
theorem failure_feedback_by_page_witness :
    (TrackerPage.handleTrack demoPlatform sampleTracker (Env.init Storage.empty)
        (.networkError "Failed to fetch")).1.apiError = some "❌ Failed to fetch"
    ∧ (∃ text, (TrackerPage.handleTrack demoPlatform sampleTracker (Env.init Storage.empty)
        (.json false (.obj [("detail", .str "boom")]))).1.apiError = some ("❌ " ++ text))
    ∧ (PatternPage.handleOptimize demoPlatform samplePattern (Env.init Storage.empty)
        (.networkError "Failed to fetch")).2.alerts
      = ["Error during optimization: Failed to fetch"]
    ∧ (ReportsPage.handleAnalyze demoPlatform sampleReports (Env.init Storage.empty)
        (.json false (.obj [("error", .str "Unsupported file")]))).1.error ≠ ""
    ∧ (ChatbotPage.sendMessage { messages := [], input := "hello" } (Env.init Storage.empty)
        (.json false (.obj []))).1.messages
      = [{ sender := "user", text := .str "hello" }, { sender := "bot", text := .undefined }] :=
  ⟨((failure_feedback_by_page demoPlatform (Env.init Storage.empty)).2.2.1 sampleTracker
      (by decide) (by decide) (by decide) (by decide) (by decide) (by decide)).1
      "Failed to fetch",
    ((failure_feedback_by_page demoPlatform (Env.init Storage.empty)).2.2.1 sampleTracker
      (by decide) (by decide) (by decide) (by decide) (by decide) (by decide)).2.2
      (.obj [("detail", .str "boom")]),
    ((failure_feedback_by_page demoPlatform (Env.init Storage.empty)).2.2.2.1 samplePattern
      ⟨"shirt.dxf", "0 SECTION"⟩ rfl (by decide)).1 "Failed to fetch",
    ((failure_feedback_by_page demoPlatform (Env.init Storage.empty)).2.2.2.2.1 sampleReports
      ⟨"report.pdf", "%PDF"⟩ rfl).2.2.2.1 (.obj [("error", .str "Unsupported file")])
      (.str "Unsupported file") rfl (by decide),
    ((failure_feedback_by_page demoPlatform (Env.init Storage.empty)).2.2.2.2.2.1
      { messages := [], input := "hello" } (by decide)).2.2.2 (.obj []) .undefined rfl⟩

/-- C12. `TrackerPage.handleTrack`, on a form with all six fields filled in: for a response
outside 2xx whose JSON body `b` lets `b.error` be read, `apiError` becomes "❌ " followed by
`b.error` when that is truthy (non-empty) and by "Prediction failed" otherwise; for a
network failure or a body that is not JSON it becomes "❌ " followed by the message of the
error; and in every failure case, a `null` body included, `loading` ends false. -/
theorem track_failure_message (P : Platform) (s : TrackerState) (env : Env)
    (h1 : s.productType ≠ "") (h2 : s.co2 ≠ "") (h3 : s.water ≠ "") (h4 : s.energy ≠ "")
    (h5 : s.pollutant ≠ "") (h6 : s.waste ≠ "") :
    (∀ b e, b.getProp "error" = some e →
      (TrackerPage.handleTrack P s env (.json false b)).1.apiError
        = some ("❌ " ++ if e.truthy then e.toJsString P else "Prediction failed"))
    ∧ (∀ message, (TrackerPage.handleTrack P s env (.networkError message)).1.apiError
        = some ("❌ " ++ message))
    ∧ (∀ ok message, (TrackerPage.handleTrack P s env (.notJson ok message)).1.apiError
        = some ("❌ " ++ message))
    ∧ (∀ b, (TrackerPage.handleTrack P s env (.json false b)).1.loading = false)
    ∧ (∀ message, (TrackerPage.handleTrack P s env (.networkError message)).1.loading = false)
    ∧ (∀ ok message,
        (TrackerPage.handleTrack P s env (.notJson ok message)).1.loading = false) := by
  refine ⟨?_, ?_, ?_, ?_, ?_, ?_⟩
  · intro b e he
    by_cases ht : e.truthy = true
    · simp [TrackerPage.handleTrack, TrackerPage.onError, h1, h2, h3, h4, h5, h6, he,
        JsVal.or, ht]
    · simp [TrackerPage.handleTrack, TrackerPage.onError, h1, h2, h3, h4, h5, h6, he,
        JsVal.or, ht, JsVal.toJsString]
  · intro message
    simp [TrackerPage.handleTrack, TrackerPage.onError, h1, h2, h3, h4, h5, h6]
  · intro ok message
    simp [TrackerPage.handleTrack, TrackerPage.onError, h1, h2, h3, h4, h5, h6]
  · intro b
    cases hb : b.getProp "error" <;>
      simp [TrackerPage.handleTrack, TrackerPage.onError, h1, h2, h3, h4, h5, h6, hb]
  · intro message
    simp [TrackerPage.handleTrack, TrackerPage.onError, h1, h2, h3, h4, h5, h6]
  · intro ok message
    simp [TrackerPage.handleTrack, TrackerPage.onError, h1, h2, h3, h4, h5, h6]

/-- A 400 answer with an `error` text, one with an empty body object, and a dropped
connection, each on the filled sample form. -/
theorem track_failure_message_witness :
    (TrackerPage.handleTrack demoPlatform sampleTracker (Env.init Storage.empty)
        (.json false (.obj [("error", .str "Unknown product")]))).1.apiError
      = some "❌ Unknown product"
    ∧ (TrackerPage.handleTrack demoPlatform sampleTracker (Env.init Storage.empty)
        (.json false (.obj []))).1.apiError = some "❌ Prediction failed"
    ∧ (TrackerPage.handleTrack demoPlatform sampleTracker (Env.init Storage.empty)
        (.networkError "Failed to fetch")).1.apiError = some "❌ Failed to fetch" :=
  ⟨(track_failure_message demoPlatform sampleTracker (Env.init Storage.empty)
      (by decide) (by decide) (by decide) (by decide) (by decide) (by decide)).1
      (.obj [("error", .str "Unknown product")]) (.str "Unknown product") rfl,
    (track_failure_message demoPlatform sampleTracker (Env.init Storage.empty)
      (by decide) (by decide) (by decide) (by decide) (by decide) (by decide)).1
      (.obj []) .undefined rfl,
    (track_failure_message demoPlatform sampleTracker (Env.init Storage.empty)
      (by decide) (by decide) (by decide) (by decide) (by decide) (by decide)).2.1
      "Failed to fetch"⟩

/-- C13, as the spec states it, fails: a 500 response whose JSON body has no `error` field
is not treated as a failure. `error` stays empty and `analysis` becomes that body. -/
theorem analyze_accepts_error_status :
    (ReportsPage.handleAnalyze demoPlatform sampleReports (Env.init Storage.empty)
        (.json false (.obj [("detail", .str "Internal Server Error")]))).1.error = ""
    ∧ (ReportsPage.handleAnalyze demoPlatform sampleReports (Env.init Storage.empty)
        (.json false (.obj [("detail", .str "Internal Server Error")]))).1.analysis
      = .obj [("detail", .str "Internal Server Error")] := by
  exact ⟨rfl, rfl⟩

/-- C13, amended. `ReportsPage.handleAnalyze`, with a file chosen, never looks at the status
of the response. A response, outside 2xx or not, is treated as a failure when its body is
not JSON, when it is `null`, or when it carries a truthy `error`: then `error` is set to a
non-empty message, `analysis` stays `null` and `loading` ends false. -/
theorem analyze_failure_by_body (P : Platform) (s : ReportsState) (env : Env) (file : JsFile)
    (hfile : s.file = some file) :
    (∀ ok b e, b.getProp "error" = some e → e.truthy = true →
      (ReportsPage.handleAnalyze P s env (.json ok b)).1.error ≠ ""
      ∧ (ReportsPage.handleAnalyze P s env (.json ok b)).1.analysis = .null
      ∧ (ReportsPage.handleAnalyze P s env (.json ok b)).1.loading = false)
    ∧ (∀ ok b, b.getProp "error" = none →
      (ReportsPage.handleAnalyze P s env (.json ok b)).1.error ≠ ""
      ∧ (ReportsPage.handleAnalyze P s env (.json ok b)).1.analysis = .null
      ∧ (ReportsPage.handleAnalyze P s env (.json ok b)).1.loading = false)
    ∧ (∀ ok message,
      (ReportsPage.handleAnalyze P s env (.notJson ok message)).1.error ≠ ""
      ∧ (ReportsPage.handleAnalyze P s env (.notJson ok message)).1.analysis = .null
      ∧ (ReportsPage.handleAnalyze P s env (.notJson ok message)).1.loading = false) := by
  refine ⟨?_, ?_, ?_⟩
  · intro ok b e he ht
    simp only [ReportsPage.handleAnalyze, hfile, he, ht, if_true]
    exact ⟨ReportsPage.onError_error_ne_empty _ _, rfl, rfl⟩
  · intro ok b he
    simp only [ReportsPage.handleAnalyze, hfile, he]
    exact ⟨ReportsPage.onError_error_ne_empty _ _, rfl, rfl⟩
  · intro ok message
    simp only [ReportsPage.handleAnalyze, hfile]
    exact ⟨ReportsPage.onError_error_ne_empty _ _, rfl, rfl⟩

/-- A 400 answer that carries an `error` text is shown as that text. -/
theorem analyze_failure_by_body_witness :
    sampleReports.file = some ⟨"report.pdf", "%PDF"⟩
    ∧ (ReportsPage.handleAnalyze demoPlatform sampleReports (Env.init Storage.empty)
        (.json false (.obj [("error", .str "Unsupported file")]))).1.error ≠ ""
    ∧ (ReportsPage.handleAnalyze demoPlatform sampleReports (Env.init Storage.empty)
        (.json false (.obj [("error", .str "Unsupported file")]))).1.analysis = .null :=
  ⟨rfl,
    ((analyze_failure_by_body demoPlatform sampleReports (Env.init Storage.empty)
      ⟨"report.pdf", "%PDF"⟩ rfl).1 false (.obj [("error", .str "Unsupported file")])
      (.str "Unsupported file") rfl (by decide)).1,
    ((analyze_failure_by_body demoPlatform sampleReports (Env.init Storage.empty)
      ⟨"report.pdf", "%PDF"⟩ rfl).1 false (.obj [("error", .str "Unsupported file")])
      (.str "Unsupported file") rfl (by decide)).2.1⟩

/-- C14. `PatternResult`: for every navigation state the "No Result Found" fallback is
rendered if and only if `state.result` is falsy, which covers a missing state and a missing
`result`; the fallback is one fixed view into which no field of the result enters, its only
button navigates to /pattern, and for a truthy result the page renders the result view, no
property read failing. -/
theorem result_fallback_iff_no_result (P : Platform) (locationState : JsVal) :
    (PatternResult.render P locationState = PatternResult.fallback
      ↔ (PatternResult.result locationState).truthy = false)
    ∧ (locationState.nullish = true →
        PatternResult.render P locationState = PatternResult.fallback)
    ∧ (∀ heading text buttons,
        PatternResult.render P locationState = .noResult heading text buttons →
        heading = "⚠️ No Result Found" ∧ buttons.map NavButton.target = ["/pattern"])
    ∧ ((PatternResult.result locationState).truthy = true →
        ∃ v, PatternResult.render P locationState = .result v) := by
  have htrue : (PatternResult.result locationState).truthy = true →
      ∃ v, PatternResult.render P locationState = .result v := by
    intro h
    obtain ⟨v, hv⟩ := PatternResult.derive_isSome P _ h
    exact ⟨v, by simp [PatternResult.render, h, hv]⟩
  have hfalse : (PatternResult.result locationState).truthy = false →
      PatternResult.render P locationState = PatternResult.fallback := by
    intro h
    simp [PatternResult.render, h]
  refine ⟨⟨?_, hfalse⟩, ?_, ?_, htrue⟩
  · intro h
    by_contra hne
    obtain ⟨v, hv⟩ := htrue (by simpa using hne)
    rw [hv] at h
    simp [PatternResult.fallback] at h
  · intro hn
    apply hfalse
    cases locationState <;>
      simp_all [PatternResult.result, JsVal.getPropOpt, JsVal.getProp, JsVal.nullish,
        JsVal.truthy]
  · intro heading text buttons h
    by_cases ht : (PatternResult.result locationState).truthy = true
    · obtain ⟨v, hv⟩ := htrue ht
      rw [hv] at h
      cases h
    · rw [hfalse (by simpa using ht)] at h
      simp only [PatternResult.fallback, PatternResultView.noResult.injEq] at h
      obtain ⟨h1, _, h3⟩ := h
      subst h1 h3
      exact ⟨rfl, rfl⟩

/-- Reloading the result page (no navigation state) shows the fallback, and so does a state
whose result is the number 0; a result object is rendered. -/
theorem result_fallback_iff_no_result_witness :
    PatternResult.render demoPlatform .null = PatternResult.fallback
    ∧ PatternResult.render demoPlatform (.obj [("result", .num 0)]) = PatternResult.fallback
    ∧ ∃ v, PatternResult.render demoPlatform
        (.obj [("result", .obj [("status", .str "success")])]) = .result v :=
  ⟨(result_fallback_iff_no_result demoPlatform .null).2.1 rfl,
    (result_fallback_iff_no_result demoPlatform (.obj [("result", .num 0)])).1.mpr
      (by decide),
    (result_fallback_iff_no_result demoPlatform
      (.obj [("result", .obj [("status", .str "success")])])).2.2.2 (by decide)⟩

/-- C15. Navigation-carried result: `PatternPage.handleOptimize`, once the form has a file
and a width, navigates to /pattern/result exactly when the response is ok and its body
parses; the state it passes is `{ result: body }`, so what `PatternResult` reads back is the
body unmodified. On a response that is not ok, a body that does not parse or a network
error it does not navigate and raises one alert with the message of the error, which for a
JSON body outside 2xx is `body.error` or else "Optimization failed". In every case
`loading` ends false. -/
theorem optimize_navigates_with_body (P : Platform) (s : PatternState) (env : Env)
    (file : JsFile) (hfile : s.patternFile = some file) (hwidth : s.fabricWidth ≠ "") :
    (∀ data,
      (PatternPage.handleOptimize P s env (.json true data)).2.navigations
        = env.navigations ++ [{ path := "/pattern/result", state := .obj [("result", data)] }]
      ∧ PatternResult.result (.obj [("result", data)]) = data
      ∧ (PatternPage.handleOptimize P s env (.json true data)).2.alerts = env.alerts)
    ∧ (∀ b e, b.getProp "error" = some e →
      (PatternPage.handleOptimize P s env (.json false b)).2.alerts
        = env.alerts ++ ["Error during optimization: "
            ++ if e.truthy then e.toJsString P else "Optimization failed"])
    ∧ (∀ message,
      (PatternPage.handleOptimize P s env (.networkError message)).2.alerts
        = env.alerts ++ ["Error during optimization: " ++ message])
    ∧ (∀ ok message,
      (PatternPage.handleOptimize P s env (.notJson ok message)).2.alerts
        = env.alerts ++ ["Error during optimization: " ++ message])
    ∧ (∀ o, (∀ data, o ≠ .json true data) →
      (PatternPage.handleOptimize P s env o).2.navigations = env.navigations
      ∧ (PatternPage.handleOptimize P s env o).2.alerts.length = env.alerts.length + 1)
    ∧ (∀ o, (PatternPage.handleOptimize P s env o).1.loading = false) := by
  refine ⟨?_, ?_, ?_, ?_, ?_, ?_⟩
  · intro data
    refine ⟨?_, JsVal.getPropOpt_obj_singleton "result" data, ?_⟩
    · simp [PatternPage.handleOptimize, hfile, hwidth, Env.send, Env.navigate]
    · simp [PatternPage.handleOptimize, hfile, hwidth, Env.send, Env.navigate]
  · intro b e he
    by_cases ht : e.truthy = true
    · simp [PatternPage.handleOptimize, PatternPage.onError, hfile, hwidth, he, Env.send,
        Env.alert, JsVal.or, ht]
    · simp [PatternPage.handleOptimize, PatternPage.onError, hfile, hwidth, he, Env.send,
        Env.alert, JsVal.or, ht, JsVal.toJsString]
  · intro message
    simp [PatternPage.handleOptimize, PatternPage.onError, hfile, hwidth, Env.send, Env.alert]
  · intro ok message
    simp [PatternPage.handleOptimize, PatternPage.onError, hfile, hwidth, Env.send, Env.alert]
  · intro o ho
    cases o with
    | networkError message =>
      simp [PatternPage.handleOptimize, PatternPage.onError, hfile, hwidth, Env.send,
        Env.alert]
    | notJson ok message =>
      simp [PatternPage.handleOptimize, PatternPage.onError, hfile, hwidth, Env.send,
        Env.alert]
    | json ok b =>
      cases ok with
      | true => exact absurd rfl (ho b)
      | false =>
        cases hb : b.getProp "error" <;>
          simp [PatternPage.handleOptimize, PatternPage.onError, hfile, hwidth, hb, Env.send,
            Env.alert]
  · intro o
    cases o with
    | networkError message =>
      simp [PatternPage.handleOptimize, PatternPage.onError, hfile, hwidth]
    | notJson ok message =>
      simp [PatternPage.handleOptimize, PatternPage.onError, hfile, hwidth]
    | json ok b =>
      cases ok with
      | true => simp [PatternPage.handleOptimize, hfile, hwidth]
      | false =>
        cases hb : b.getProp "error" <;>
          simp [PatternPage.handleOptimize, PatternPage.onError, hfile, hwidth, hb]

/-- An ok answer on the sample form is carried to the result page; a 400 answer with an
`error` text raises that text in an alert. -/
theorem optimize_navigates_with_body_witness :
    (samplePattern.patternFile = some ⟨"shirt.dxf", "0 SECTION"⟩ ∧ samplePattern.fabricWidth ≠ "")
    ∧ (PatternPage.handleOptimize demoPlatform samplePattern (Env.init Storage.empty)
        (.json true (.obj [("status", .str "success")]))).2.navigations.map Navigation.path
      = ["/pattern/result"]
    ∧ (PatternPage.handleOptimize demoPlatform samplePattern (Env.init Storage.empty)
        (.json false (.obj [("error", .str "No polygons")]))).2.alerts
      = ["Error during optimization: No polygons"] :=
  ⟨⟨rfl, by decide⟩,
    (congrArg (List.map Navigation.path)
      ((optimize_navigates_with_body demoPlatform samplePattern (Env.init Storage.empty)
        ⟨"shirt.dxf", "0 SECTION"⟩ rfl (by decide)).1
        (.obj [("status", .str "success")])).1).trans rfl,
    (optimize_navigates_with_body demoPlatform samplePattern (Env.init Storage.empty)
      ⟨"shirt.dxf", "0 SECTION"⟩ rfl (by decide)).2.1
      (.obj [("error", .str "No polygons")]) (.str "No polygons") rfl⟩

/-- C16. Dashboard displayed values. Take any run of fetches whose last successful one
returned the body `r` (whatever came before, only failed fetches after), with no field of
`r` being the placeholder string itself. Then the three cards show `r.co2`, `r.water` and
`r.waste` followed by " Tons", " L" and " %", each replaced by "--" exactly when the field is
`null` or absent, so that 0 is shown as 0; and a single failed fetch leaves the metrics as
they were. -/
theorem cards_show_last_success (P : Platform) (s0 : DashboardState) (env0 : Env)
    (before after : List (String × AxiosOutcome)) (time : String) (r : JsVal)
    (hr : r.nullish = false)
    (hafter : ∀ p ∈ after, Dashboard.succeeds p.2 = false)
    (hco2 : (r.getPropOpt "co2").isString "--" = false)
    (hwater : (r.getPropOpt "water").isString "--" = false)
    (hwaste : (r.getPropOpt "waste").isString "--" = false) :
    Dashboard.cards P (Dashboard.run P s0 env0 (before ++ (time, .resolved r) :: after)).1
      = [ if (r.getPropOpt "co2").nullish then "--"
            else (r.getPropOpt "co2").toJsString P ++ " Tons",
          if (r.getPropOpt "water").nullish then "--"
            else (r.getPropOpt "water").toJsString P ++ " L",
          if (r.getPropOpt "waste").nullish then "--"
            else (r.getPropOpt "waste").toJsString P ++ " %" ]
    ∧ (∀ v : JsVal, v.nullish = false →
        v.toJsString P ++ " Tons" ≠ "--" ∧ v.toJsString P ++ " L" ≠ "--"
        ∧ v.toJsString P ++ " %" ≠ "--")
    ∧ (∀ (s : DashboardState) (env : Env) (t : String) (o : AxiosOutcome),
        Dashboard.succeeds o = false →
        (Dashboard.fetchDashboardData P t s env o).1.metrics = s.metrics) := by
  refine ⟨?_, ?_, ?_⟩
  · have hsplit : Dashboard.run P s0 env0 (before ++ (time, .resolved r) :: after)
        = Dashboard.run P
            (Dashboard.fetchDashboardData P time (Dashboard.run P s0 env0 before).1
              (Dashboard.run P s0 env0 before).2 (.resolved r)).1
            (Dashboard.fetchDashboardData P time (Dashboard.run P s0 env0 before).1
              (Dashboard.run P s0 env0 before).2 (.resolved r)).2 after := by
      simp [Dashboard.run, List.foldl_append]
    have hok := fetchDashboardData_metrics_of_success P time
      (Dashboard.run P s0 env0 before).1 (Dashboard.run P s0 env0 before).2 r hr
    have hrun := run_metrics_of_failures P after hafter
      (Dashboard.fetchDashboardData P time (Dashboard.run P s0 env0 before).1
        (Dashboard.run P s0 env0 before).2 (.resolved r)).1
      (Dashboard.fetchDashboardData P time (Dashboard.run P s0 env0 before).1
        (Dashboard.run P s0 env0 before).2 (.resolved r)).2 hok.2
    rw [hsplit]
    simp only [Dashboard.cards, Dashboard.stats, hrun.1, hrun.2, hok.1, List.map_cons,
      List.map_nil, statValue_coalesce P _ _ hco2, statValue_coalesce P _ _ hwater,
      statValue_coalesce P _ _ hwaste]
    simp
  · intro v _
    exact ⟨append_ne_dashes _ " Tons" (by decide) (by decide),
      append_ne_dashes _ " L" (by decide) (by decide),
      append_ne_dashes _ " %" (by decide) (by decide)⟩
  · intro s env t o ho
    exact (fetchDashboardData_metrics_of_failure P t s env o ho).1

/-- A fetch with zero emissions and no waste figure, followed by a failed one: the cards
show the zero with its unit and the placeholder for the missing figure. -/
theorem cards_show_last_success_witness :
    (∀ p ∈ [("09:01", AxiosOutcome.rejected none)], Dashboard.succeeds p.2 = false)
    ∧ Dashboard.cards demoPlatform (Dashboard.run demoPlatform Dashboard.init
        (Env.init Storage.empty)
        ([] ++ ("09:00", .resolved (.obj [("co2", .num 0), ("water", .num 70)]))
          :: [("09:01", .rejected none)])).1
      = ["0 Tons", "70 L", "--"] :=
  ⟨by decide,
    (cards_show_last_success demoPlatform Dashboard.init (Env.init Storage.empty) []
      [("09:01", .rejected none)] "09:00" (.obj [("co2", .num 0), ("water", .num 70)])
      rfl (by decide) rfl rfl rfl).1.trans (by decide)⟩

/-- C17, as the spec states it, fails: the pages that start a periodic timer on mount are
Dashboard and Alerts, and none of them has a timer registered after its unmount cleanup, so
it is not true that most of them leave theirs running. -/
theorem no_page_leaves_timer :
    Page.all.filter Page.startsTimer = [.Dashboard, .AlertsPage]
    ∧ Page.all.filter (fun p => p.startsTimer && p.leavesTimer) = []
    ∧ ¬ (2 * (Page.all.filter (fun p => p.startsTimer && p.leavesTimer)).length
          > (Page.all.filter Page.startsTimer).length) := by
  decide

/-- C17, amended. Every page that starts a periodic re-fetch timer on mount, which are
Dashboard (every 30 s) and Alerts (every 15 s), cancels it on unmount: once the unmount
cleanup has run, the timers registered are those that were there before the page was
mounted. -/
theorem unmount_cancels_timer (p : Page) (t : Timers) (ht : t.WellFormed) :
    (Page.unmounted p t).active = t.active
    ∧ (p.startsTimer = true ↔ p = .Dashboard ∨ p = .AlertsPage)
    ∧ (Page.mounted .Dashboard t).active
        = t.active ++ [{ id := t.nextId, callback := "fetchDashboardData", period := 30000 }]
    ∧ (Page.mounted .AlertsPage t).active
        = t.active ++ [{ id := t.nextId, callback := "fetchAlerts", period := 15000 }] := by
  refine ⟨?_, ?_, rfl, rfl⟩
  · cases p
    case Dashboard => exact Timers.clearInterval_setInterval t _ _ ht
    case AlertsPage => exact Timers.clearInterval_setInterval t _ _ ht
    all_goals rfl
  · cases p <;> decide

/-- Mounting and unmounting the dashboard on a window with one foreign timer leaves just
that timer. -/
theorem unmount_cancels_timer_witness :
    Timers.WellFormed { nextId := 8, active := [{ id := 7, callback := "tick", period := 1000 }] }
    ∧ (Page.unmounted .Dashboard
        { nextId := 8, active := [{ id := 7, callback := "tick", period := 1000 }] }).active
      = [{ id := 7, callback := "tick", period := 1000 }] :=
  ⟨by intro i hi; simp at hi; subst hi; decide,
    (unmount_cancels_timer .Dashboard
      { nextId := 8, active := [{ id := 7, callback := "tick", period := 1000 }] }
      (by intro i hi; simp at hi; subst hi; decide)).1⟩

/-- C18, as the spec states it, fails: when the manual request returns a body that is not
JSON while the auto request loads one alert, the empty `messages` list is replaced by the
alert of the stream that did load. -/
theorem manual_parse_failure_merges_auto :
    (AlertsPage.fetchAlerts demoPlatform 1000 ⟨[], "", true⟩ (Env.init Storage.empty)
        (.body (some [[("title", .str "CO2 spike"), ("createdAt", .num 100)]]))
        .notJson).1.messages
      = [.obj [("title", .str "CO2 spike"), ("createdAt", .num 100)]] := by
  rfl

/-- C18, amended. `AlertsPage.fetchAlerts` leaves `messages` unchanged when the auto request
fails (network error or a body that is not JSON) and when the manual request fails with a
network error. A manual body that is not JSON is taken as an empty list of alerts: then
`messages` is set as if the manual stream had loaded with no alert in it. -/
theorem fetchAlerts_on_request_failure (P : Platform) (now : Int) (s : AlertsState)
    (env : Env) :
    (∀ manualReply,
      (AlertsPage.fetchAlerts P now s env .networkError manualReply).1.messages = s.messages)
    ∧ (∀ manualReply,
      (AlertsPage.fetchAlerts P now s env .notJson manualReply).1.messages = s.messages)
    ∧ (∀ autoAlerts,
      (AlertsPage.fetchAlerts P now s env (.body autoAlerts) .networkError).1.messages
        = s.messages)
    ∧ (∀ autoAlerts,
      (AlertsPage.fetchAlerts P now s env (.body autoAlerts) .notJson)
        = (AlertsPage.fetchAlerts P now s env (.body autoAlerts) (.body (some [])))) := by
  refine ⟨?_, ?_, ?_, ?_⟩
  · intro manualReply
    rfl
  · intro manualReply
    rfl
  · intro autoAlerts
    rfl
  · intro autoAlerts
    rfl

/-- C19. `TrackerPage.handleTrack` validates presence only: whenever all six fields are
non-empty, whatever they contain, exactly one request is issued, a POST to /predict, no
validation toast is raised, and each of the five numeric fields of its body is the number
parsed from the corresponding input, or 0 when the input does not parse to a non-zero
number. -/
theorem track_sends_parsed_or_zero (P : Platform) (s : TrackerState) (env : Env)
    (o : FetchOutcome)
    (h1 : s.productType ≠ "") (h2 : s.co2 ≠ "") (h3 : s.water ≠ "") (h4 : s.energy ≠ "")
    (h5 : s.pollutant ≠ "") (h6 : s.waste ≠ "") :
    ∃ ghg waterC energyC pollutantsC wasteC : JsVal,
      (TrackerPage.handleTrack P s env o).2.requests = env.requests ++
        [{ method := "POST", url := "http://127.0.0.1:5000/predict",
           body := .json (.obj
             [("product_type", .str s.productType),
              ("greenhouse_gas_emissions", ghg),
              ("water_consumption", waterC),
              ("energy_consumption", energyC),
              ("pollutants_emitted", pollutantsC),
              ("waste_generation", wasteC),
              ("tone", .str s.tone)]) }]
      ∧ ParsedOrZero (P.parseFloat s.co2) ghg
      ∧ ParsedOrZero (P.parseFloat s.water) waterC
      ∧ ParsedOrZero (P.parseFloat s.energy) energyC
      ∧ ParsedOrZero (P.parseFloat s.pollutant) pollutantsC
      ∧ ParsedOrZero (P.parseFloat s.waste) wasteC
      ∧ (TrackerPage.handleTrack P s env o).2.toasts = env.toasts := by
  refine ⟨_, _, _, _, _, ?_, parsedOrZero_or _, parsedOrZero_or _, parsedOrZero_or _,
    parsedOrZero_or _, parsedOrZero_or _, ?_⟩
  · rw [handleTrack_env_of_filled P s env o h1 h2 h3 h4 h5 h6]
    rfl
  · rw [handleTrack_env_of_filled P s env o h1 h2 h3 h4 h5 h6]
    rfl

/-- The sample form, with a non-numeric energy figure and a negative pollutant figure, is
sent all the same: one request goes out. -/
theorem track_sends_parsed_or_zero_witness :
    (sampleTracker.energy = "abc" ∧ sampleTracker.pollutant = "-2")
    ∧ (TrackerPage.handleTrack demoPlatform sampleTracker (Env.init Storage.empty)
        (.networkError "Failed to fetch")).2.requests.length = 1 := by
  refine ⟨⟨rfl, rfl⟩, ?_⟩
  obtain ⟨_, _, _, _, _, h, _⟩ := track_sends_parsed_or_zero demoPlatform sampleTracker
    (Env.init Storage.empty) (.networkError "Failed to fetch")
    (by decide) (by decide) (by decide) (by decide) (by decide) (by decide)
  rw [h]
  rfl

/-- C20. Route table: the routes wrapped in the session gate are exactly /dashboard, /about
and /features; each of the ten other registered paths renders its page whatever local
storage holds, and so do the tool pages the dashboard links to. -/
theorem only_three_routes_gated :
    (App.routes.filter (fun r => r.gated)).map (fun r => r.path)
      = ["/dashboard", "/about", "/features"]
    ∧ (App.routes.filter (fun r => !r.gated)).map (fun r => r.path)
      = ["/", "/signup", "/contact", "/login", "/pattern", "/pattern/result", "/tracker",
         "/reports", "/chatbot", "/alerts"]
    ∧ (∀ env : Env,
        App.render env "/" = .page .LandingPage
        ∧ App.render env "/login" = .page .Login
        ∧ App.render env "/signup" = .page .Signup
        ∧ App.render env "/contact" = .page .ContactUs
        ∧ App.render env "/pattern" = .page .PatternPage
        ∧ App.render env "/pattern/result" = .page .PatternResult
        ∧ App.render env "/tracker" = .page .TrackerPage
        ∧ App.render env "/reports" = .page .ReportsPage
        ∧ App.render env "/chatbot" = .page .ChatbotPage
        ∧ App.render env "/alerts" = .page .AlertsPage)
    ∧ (∀ env : Env,
        Dashboard.toolLinks.map (App.render env)
          = [.page .PatternPage, .page .TrackerPage, .page .ReportsPage, .page .AlertsPage,
             .page .ChatbotPage]) := by
  refine ⟨by decide, by decide, ?_, ?_⟩
  · intro env
    refine ⟨rfl, rfl, rfl, rfl, rfl, rfl, rfl, rfl, rfl, rfl⟩
  · intro env
    rfl

/-- C21. Login redirect target: after a login that succeeds, the navigation the handler
schedules goes to `location.state.from.pathname` when the page was entered with that state
set to a non-empty path, and to "/" when the state, its `from` or the pathname is missing or
empty; a login that fails schedules no navigation and issues none. -/
theorem login_redirects_to_origin (P : Platform) (locationState : JsVal) (s : LoginState)
    (env : Env) (d token : JsVal) (hd : d.getProp "token" = some token) :
    (∀ path, (locationState.getPropOpt "from").getPropOpt "pathname" = .str path →
      path ≠ "" →
      (Login.onSubmit P locationState s env (.resolved d)).timeouts
        = env.timeouts ++ [{ delay := 2500, path := path }])
    ∧ (((locationState.getPropOpt "from").getPropOpt "pathname").truthy = false →
      (Login.onSubmit P locationState s env (.resolved d)).timeouts
        = env.timeouts ++ [{ delay := 2500, path := "/" }])
    ∧ (Login.onSubmit P locationState s env (.resolved d)).navigations = env.navigations
    ∧ (∀ response,
      (Login.onSubmit P locationState s env (.rejected response)).timeouts = env.timeouts
      ∧ (Login.onSubmit P locationState s env (.rejected response)).navigations
          = env.navigations) := by
  refine ⟨?_, ?_, ?_, ?_⟩
  · intro path hp hne
    simp [Login.onSubmit, Login.dest, Login.handleLogin, hd, hp, JsVal.or, JsVal.truthy, hne,
      JsVal.toJsString, Env.send, Env.toast, Env.navigateAfter]
  · intro hf
    simp [Login.onSubmit, Login.dest, Login.handleLogin, hd, JsVal.or, hf,
      JsVal.toJsString, Env.send, Env.toast, Env.navigateAfter]
  · simp [Login.onSubmit, Login.handleLogin, hd, Env.send, Env.toast, Env.navigateAfter]
  · intro response
    simp [Login.onSubmit, Login.handleLogin, Login.onError, Env.send, Env.toast]

/-- A login entered from /dashboard leads back there; one entered directly leads to "/". -/
theorem login_redirects_to_origin_witness :
    (JsVal.obj [("token", .str "abc")]).getProp "token" = some (.str "abc")
    ∧ (Login.onSubmit demoPlatform
        (.obj [("from", .obj [("pathname", .str "/dashboard")])]) ⟨"a@b.c", "pw", false⟩
        (Env.init Storage.empty) (.resolved (.obj [("token", .str "abc")]))).timeouts
      = [{ delay := 2500, path := "/dashboard" }]
    ∧ (Login.onSubmit demoPlatform .null ⟨"a@b.c", "pw", false⟩
        (Env.init Storage.empty) (.resolved (.obj [("token", .str "abc")]))).timeouts
      = [{ delay := 2500, path := "/" }] :=
  ⟨rfl,
    (login_redirects_to_origin demoPlatform
      (.obj [("from", .obj [("pathname", .str "/dashboard")])]) ⟨"a@b.c", "pw", false⟩
      (Env.init Storage.empty) (.obj [("token", .str "abc")]) (.str "abc") rfl).1
      "/dashboard" rfl (by decide),
    (login_redirects_to_origin demoPlatform .null ⟨"a@b.c", "pw", false⟩
      (Env.init Storage.empty) (.obj [("token", .str "abc")]) (.str "abc") rfl).2.1 rfl⟩

/-- C22. Chatbot transcript: a call of `sendMessage` only ever appends to `messages`. Over
any run of calls made one after the other with non-blank input, each call appends exactly
two messages, the user's text as typed and then one bot message (the reply of the backend,
or the fixed failure text), and clears the input. So after n calls the list is the greeting
followed by these n pairs: its length is 1 + 2n, the greeting is first, and the senders are
bot, user, bot, user, bot, ... -/
theorem chatbot_transcript (env : Env) (steps : List (String × FetchOutcome))
    (h : ∀ st ∈ steps, trim st.1 ≠ "") :
    (ChatbotPage.run ChatbotPage.init env steps).1.messages
      = ChatbotPage.init.messages ++ steps.flatMap (fun st =>
          [{ sender := "user", text := .str st.1 }, ChatbotPage.botMessage st.2])
    ∧ (ChatbotPage.run ChatbotPage.init env steps).1.messages.length = 1 + 2 * steps.length
    ∧ (ChatbotPage.run ChatbotPage.init env steps).1.messages.map ChatMessage.sender
      = "bot" :: (List.replicate steps.length ["user", "bot"]).flatten
    ∧ (steps ≠ [] → (ChatbotPage.run ChatbotPage.init env steps).1.input = "")
    ∧ (∀ (s : ChatbotState) (e : Env) (o : FetchOutcome),
        ∃ added, (ChatbotPage.sendMessage s e o).1.messages = s.messages ++ added) := by
  have hmsgs := ChatbotPage.run_messages steps h ChatbotPage.init env
  have hsenders : (ChatbotPage.run ChatbotPage.init env steps).1.messages.map
      ChatMessage.sender = "bot" :: (List.replicate steps.length ["user", "bot"]).flatten := by
    rw [hmsgs, List.map_append, ChatbotPage.senders_of_steps]
    rfl
  refine ⟨hmsgs, ?_, hsenders, ?_, ?_⟩
  · have := congrArg List.length hsenders
    simp only [List.length_map, List.length_cons, List.length_flatten, List.map_replicate,
      List.sum_replicate, List.length_nil, smul_eq_mul] at this
    omega
  · intro hne
    exact ChatbotPage.run_input steps h hne ChatbotPage.init env
  · intro s e o
    by_cases hb : trim s.input = ""
    · exact ⟨[], by simp [ChatbotPage.sendMessage, hb]⟩
    · exact ⟨_, by rw [ChatbotPage.sendMessage_of_nonblank s e o hb]⟩

/-- Two questions, the first answered and the second lost on the network: five messages,
senders alternating from the greeting on. -/
theorem chatbot_transcript_witness :
    (∀ st ∈ [("hello", FetchOutcome.json true (.obj [("reply", .str "hi")])),
             ("and now?", FetchOutcome.networkError "offline")], trim st.1 ≠ "")
    ∧ (ChatbotPage.run ChatbotPage.init (Env.init Storage.empty)
        [("hello", .json true (.obj [("reply", .str "hi")])),
         ("and now?", .networkError "offline")]).1.messages.map ChatMessage.sender
      = ["bot", "user", "bot", "user", "bot"] :=
  ⟨by decide,
    (chatbot_transcript (Env.init Storage.empty)
      [("hello", .json true (.obj [("reply", .str "hi")])),
       ("and now?", .networkError "offline")] (by decide)).2.2.1⟩

/-- C23. `AlertsPage.handleSend`, for every non-blank draft: when the body of the response
has a truthy `success`, `messages` becomes `data.newAlert` followed by the previous messages
in their order and the draft is cleared; when `success` is falsy, or the request fails, the
body is not JSON or is `null`, the page state, `messages` and draft included, is what it
was. -/
theorem send_prepends_new_alert (s : AlertsState) (env : Env) (h : trim s.manualMsg ≠ "") :
    (∀ ok data success, data.getProp "success" = some success → success.truthy = true →
      (AlertsPage.handleSend s env (.json ok data)).1
        = { s with messages := data.getPropOpt "newAlert" :: s.messages, manualMsg := "" })
    ∧ (∀ ok data success, data.getProp "success" = some success → success.truthy = false →
      (AlertsPage.handleSend s env (.json ok data)).1 = s)
    ∧ (∀ ok data, data.getProp "success" = none →
      (AlertsPage.handleSend s env (.json ok data)).1 = s)
    ∧ (∀ message, (AlertsPage.handleSend s env (.networkError message)).1 = s)
    ∧ (∀ ok message, (AlertsPage.handleSend s env (.notJson ok message)).1 = s) := by
  refine ⟨?_, ?_, ?_, ?_, ?_⟩
  · intro ok data success hs ht
    simp [AlertsPage.handleSend, h, hs, ht]
  · intro ok data success hs ht
    simp [AlertsPage.handleSend, h, hs, ht]
  · intro ok data hs
    simp [AlertsPage.handleSend, h, hs]
  · intro message
    simp [AlertsPage.handleSend, h]
  · intro ok message
    simp [AlertsPage.handleSend, h]

/-- A draft accepted by the backend is put in front of the two messages already shown. -/
theorem send_prepends_new_alert_witness :
    trim "Mind the dye vat" ≠ ""
    ∧ (AlertsPage.handleSend
        ⟨[.obj [("title", .str "a")], .obj [("title", .str "b")]], "Mind the dye vat", false⟩
        (Env.init Storage.empty)
        (.json true (.obj [("success", .bool true),
          ("newAlert", .obj [("title", .str "new")])]))).1
      = ⟨[.obj [("title", .str "new")], .obj [("title", .str "a")],
          .obj [("title", .str "b")]], "", false⟩ :=
  ⟨by decide,
    (send_prepends_new_alert
      ⟨[.obj [("title", .str "a")], .obj [("title", .str "b")]], "Mind the dye vat", false⟩
      (Env.init Storage.empty) (by decide)).1 true
      (.obj [("success", .bool true), ("newAlert", .obj [("title", .str "new")])])
      (.bool true) rfl rfl⟩

/-- C24. PatternPage file invariant: after any run of `handlePatternChange` calls from the
initial state, `patternFile` is either `null` or a file whose lower-cased name ends in
".dxf"; picking a file with any other name leaves the page state, the file selected before
included, as it was (an alert is raised), and cancelling the picker changes nothing. -/
theorem pattern_file_is_dxf (P : Platform) (env : Env) (picks : List (Option JsFile)) :
    (∀ f, (PatternPage.changes P PatternPage.init env picks).1.patternFile = some f →
      endsWith (P.toLowerCase f.name) ".dxf" = true)
    ∧ (∀ (s : PatternState) (e : Env) (file : JsFile),
        endsWith (P.toLowerCase file.name) ".dxf" = false →
        (PatternPage.handlePatternChange P s e (some file)).1 = s
        ∧ (PatternPage.handlePatternChange P s e (some file)).2.alerts
            = e.alerts ++ ["Please upload a DXF file"])
    ∧ (∀ (s : PatternState) (e : Env) (file : JsFile),
        endsWith (P.toLowerCase file.name) ".dxf" = true →
        (PatternPage.handlePatternChange P s e (some file))
          = ({ s with patternFile := some file }, e))
    ∧ (∀ (s : PatternState) (e : Env), PatternPage.handlePatternChange P s e none = (s, e)) := by
  refine ⟨?_, ?_, ?_, ?_⟩
  · exact PatternPage.changes_invariant P picks PatternPage.init env
      (by intro f hf; simp [PatternPage.init] at hf)
  · intro s e file hd
    simp [PatternPage.handlePatternChange, hd, Env.alert]
  · intro s e file hd
    simp [PatternPage.handlePatternChange, hd]
  · intro s e
    rfl

/-- Picking SHIRT.DXF, then a PDF, then cancelling leaves SHIRT.DXF selected. -/
theorem pattern_file_is_dxf_witness :
    (PatternPage.changes demoPlatform PatternPage.init (Env.init Storage.empty)
        [some ⟨"SHIRT.DXF", "0 SECTION"⟩, some ⟨"notes.pdf", "%PDF"⟩, none]).1.patternFile
      = some ⟨"SHIRT.DXF", "0 SECTION"⟩
    ∧ endsWith (demoPlatform.toLowerCase "SHIRT.DXF") ".dxf" = true :=
  ⟨by decide,
    (pattern_file_is_dxf demoPlatform (Env.init Storage.empty)
      [some ⟨"SHIRT.DXF", "0 SECTION"⟩, some ⟨"notes.pdf", "%PDF"⟩, none]).1
      ⟨"SHIRT.DXF", "0 SECTION"⟩ (by decide)⟩

/-- C25. PatternPage request independence from product type: once a file and a width are
there, the one request `handleOptimize` issues is a multipart POST with exactly the six
fields dxf_file, fabric_width, fabric_type, seam_allowance, allow_rotation ("true" or
"false") and strategy, in that order; and two form states that differ only in the product
type leave the same requests, alerts and navigation behind, whatever the outcome. -/
theorem optimize_request_ignores_product_type (P : Platform) (s : PatternState) (env : Env)
    (o : FetchOutcome) :
    (∀ file, s.patternFile = some file → s.fabricWidth ≠ "" →
      (PatternPage.handleOptimize P s env o).2.requests = env.requests ++
        [{ method := "POST", url := "http://127.0.0.1:5001/optimize",
           body := .form
             [("dxf_file", .file file),
              ("fabric_width", .text s.fabricWidth),
              ("fabric_type", .text s.fabricType),
              ("seam_allowance", .text s.seamAllowance),
              ("allow_rotation", .text (if s.allowRotation then "true" else "false")),
              ("strategy", .text s.strategy)] }])
    ∧ (∀ productType,
      (PatternPage.handleOptimize P { s with productType := productType } env o).2
        = (PatternPage.handleOptimize P s env o).2) := by
  exact ⟨fun file hf hw => PatternPage.handleOptimize_requests P s env o file hf hw,
    fun productType => PatternPage.handleOptimize_env_productType P s env o productType⟩

/-- The sample form sends one request, and the same one when it is marked as a shirt. -/
theorem optimize_request_ignores_product_type_witness :
    (samplePattern.patternFile = some ⟨"shirt.dxf", "0 SECTION"⟩
      ∧ samplePattern.fabricWidth ≠ "")
    ∧ (PatternPage.handleOptimize demoPlatform samplePattern (Env.init Storage.empty)
        (.json true (.obj []))).2.requests.length = 1
    ∧ (PatternPage.handleOptimize demoPlatform { samplePattern with productType := "Shirt" }
        (Env.init Storage.empty) (.json true (.obj []))).2
      = (PatternPage.handleOptimize demoPlatform samplePattern (Env.init Storage.empty)
        (.json true (.obj []))).2 :=
  ⟨⟨rfl, by decide⟩,
    (congrArg List.length
      ((optimize_request_ignores_product_type demoPlatform samplePattern
        (Env.init Storage.empty) (.json true (.obj []))).1 ⟨"shirt.dxf", "0 SECTION"⟩ rfl
        (by decide))).trans rfl,
    (optimize_request_ignores_product_type demoPlatform samplePattern
      (Env.init Storage.empty) (.json true (.obj []))).2 "Shirt"⟩

/-- C26. PatternResult warning: on a page that shows a result, the "Utilization ... is below
optimal level" block is rendered if and only if `result.status` is the string "warning" and
`result.metrics` is present (truthy); the utilization does not enter this condition. The
waste shown is 100 minus the utilization shown, and the utilization is the backend value,
or 0 when the backend supplies none. -/
theorem warning_iff_status_and_metrics (P : Platform) (N : NumberOps) (locationState : JsVal)
    (hr : (PatternResult.result locationState).truthy = true) :
    ∃ v, PatternResult.render P locationState = .result v
      ∧ (PatternResult.warningShown v = true
          ↔ ((PatternResult.result locationState).getPropOpt "status").isString "warning"
              = true
            ∧ ((PatternResult.result locationState).getPropOpt "metrics").truthy = true)
      ∧ PatternResult.shownWaste P N v
          = JsVal.minus P N (.num 100) (PatternResult.shownUtilization v)
      ∧ ((((PatternResult.result locationState).getPropOpt "metrics").getPropOpt
            "utilization_percentage").truthy = false →
          PatternResult.shownUtilization v = .num 0
          ∧ PatternResult.shownWaste P N v = N.subtract 100 0)
      ∧ (∀ q : Rat,
          ((PatternResult.result locationState).getPropOpt "metrics").getPropOpt
            "utilization_percentage" = .num q → q ≠ 0 →
          PatternResult.shownUtilization v = .num q
          ∧ PatternResult.shownWaste P N v = N.subtract 100 q) := by
  obtain ⟨v, hv⟩ := PatternResult.derive_isSome P _ hr
  have he := PatternResult.derive_eq P _ hr
  rw [hv] at he
  have hv2 := Option.some.inj he
  refine ⟨v, by simp [PatternResult.render, hr, hv], ?_⟩
  subst hv2
  refine ⟨?_, rfl, ?_, ?_⟩
  · simp [PatternResult.warningShown, and_comm]
  · intro hu
    simp [PatternResult.shownUtilization, PatternResult.shownWaste, JsVal.or, hu,
      JsVal.minus, JsVal.toNumber]
  · intro q hq hne
    simp [PatternResult.shownUtilization, PatternResult.shownWaste, JsVal.or, hq,
      JsVal.truthy, hne, JsVal.minus, JsVal.toNumber]

/-- The sample result raises the warning, with utilization 62 and waste 38. -/
theorem warning_iff_status_and_metrics_witness :
    (PatternResult.result sampleResultState).truthy = true
    ∧ ∃ v, PatternResult.render demoPlatform sampleResultState = .result v
      ∧ PatternResult.warningShown v = true
      ∧ PatternResult.shownUtilization v = .num 62
      ∧ PatternResult.shownWaste demoPlatform demoNumberOps v = .num 38 := by
  obtain ⟨v, hv, hw, _, _, hq⟩ :=
    warning_iff_status_and_metrics demoPlatform demoNumberOps sampleResultState (by decide)
  refine ⟨by decide, v, hv, hw.mpr ⟨by decide, by decide⟩, (hq 62 rfl (by norm_num)).1, ?_⟩
  rw [(hq 62 rfl (by norm_num)).2]
  simp only [demoNumberOps]
  norm_num

/-- C27, as the spec states it, fails: a result without `metrics` is rendered, its used
length, used area and total placed area are absent, which is falsy, and yet the page prints
nothing at all for the three of them instead of "N/A". -/
theorem metric_fields_absent_without_metrics :
    (PatternResult.result bareResultState).truthy = true
    ∧ (((PatternResult.result bareResultState).getPropOpt "metrics").getPropOpt
        "fabric_used_length").truthy = false
    ∧ (((PatternResult.result bareResultState).getPropOpt "metrics").getPropOpt
        "fabric_used_area").truthy = false
    ∧ (((PatternResult.result bareResultState).getPropOpt "metrics").getPropOpt
        "total_placed_area").truthy = false
    ∧ ∃ v, PatternResult.render demoPlatform bareResultState = .result v
      ∧ (PatternResult.fieldTexts demoPlatform v).fabricUsedLength = none
      ∧ (PatternResult.fieldTexts demoPlatform v).fabricUsedArea = none
      ∧ (PatternResult.fieldTexts demoPlatform v).totalPieceArea = none
      ∧ (PatternResult.fieldTexts demoPlatform v).fabricWidth = "N/A" := by
  refine ⟨by decide, by decide, by decide, by decide, ?_⟩
  obtain ⟨v, hv⟩ := PatternResult.derive_isSome demoPlatform
    (PatternResult.result bareResultState) (by decide)
  have he := PatternResult.derive_eq demoPlatform (PatternResult.result bareResultState)
    (by decide)
  rw [hv] at he
  have hv2 := Option.some.inj he
  refine ⟨v, ?_, ?_⟩
  · have ht : (PatternResult.result bareResultState).truthy = true := by decide
    simp [PatternResult.render, ht, hv]
  · subst hv2
    exact ⟨rfl, rfl, rfl, by decide⟩

/-- C27, amended. PatternResult field defaults, on a page that shows a result. Fabric width,
polygon count and processing time show the backend value (followed by its unit) exactly when
that value is truthy and "N/A" otherwise. Used length, used area and total placed area do
the same whenever `result.metrics` is truthy; when it is not, the metrics block is not
rendered and the three are not printed at all. A backend value of 0 or of the empty string
is falsy and so shows as "N/A"; a backend value that is the string "N/A" prints as such. -/
theorem fields_default_to_na (P : Platform) (locationState : JsVal)
    (hr : (PatternResult.result locationState).truthy = true) :
    ∃ v, PatternResult.render P locationState = .result v
      ∧ DisplaysOrNA P
          (((PatternResult.result locationState).getPropOpt "debug_info").getPropOpt
            "fabric_width")
          v.fabricWidth (PatternResult.fieldTexts P v).fabricWidth " mm"
      ∧ DisplaysOrNA P
          ((PatternResult.result locationState).getPropOpt "processing_time_seconds")
          v.processingTime (PatternResult.fieldTexts P v).processingTime " seconds"
      ∧ (PatternResult.fieldTexts P v).polygonCount
          = (if (((PatternResult.result locationState).getPropOpt "debug_info").getPropOpt
                "polygon_count").truthy
             then ((PatternResult.result locationState).getPropOpt "debug_info").getPropOpt
                "polygon_count"
             else .str "N/A")
      ∧ (((PatternResult.result locationState).getPropOpt "metrics").truthy = true →
          ∃ usedLength usedArea totalArea,
            (PatternResult.fieldTexts P v).fabricUsedLength = some usedLength
            ∧ (PatternResult.fieldTexts P v).fabricUsedArea = some usedArea
            ∧ (PatternResult.fieldTexts P v).totalPieceArea = some totalArea
            ∧ DisplaysOrNA P
                (((PatternResult.result locationState).getPropOpt "metrics").getPropOpt
                  "fabric_used_length")
                v.fabricUsedLength usedLength " mm"
            ∧ DisplaysOrNA P
                (((PatternResult.result locationState).getPropOpt "metrics").getPropOpt
                  "fabric_used_area")
                v.fabricUsedArea usedArea " mm²"
            ∧ DisplaysOrNA P
                (((PatternResult.result locationState).getPropOpt "metrics").getPropOpt
                  "total_placed_area")
                v.totalPieceArea totalArea " mm²")
      ∧ (((PatternResult.result locationState).getPropOpt "metrics").truthy = false →
          (PatternResult.fieldTexts P v).fabricUsedLength = none
          ∧ (PatternResult.fieldTexts P v).fabricUsedArea = none
          ∧ (PatternResult.fieldTexts P v).totalPieceArea = none)
      ∧ (JsVal.num 0).truthy = false ∧ (JsVal.str "").truthy = false := by
  obtain ⟨v, hv⟩ := PatternResult.derive_isSome P _ hr
  have he := PatternResult.derive_eq P _ hr
  rw [hv] at he
  have hv2 := Option.some.inj he
  refine ⟨v, by simp [PatternResult.render, hr, hv], ?_⟩
  subst hv2
  refine ⟨displaysOrNA_or P _ _, displaysOrNA_or P _ _, rfl, ?_, ?_, by simp [JsVal.truthy],
    by simp [JsVal.truthy]⟩
  · intro hm
    refine ⟨_, _, _, ?_, ?_, ?_, displaysOrNA_or P _ " mm", displaysOrNA_or P _ " mm²",
      displaysOrNA_or P _ " mm²"⟩
    · simp [PatternResult.fieldTexts, PatternResult.inMetricsBlock, hm]
    · simp [PatternResult.fieldTexts, PatternResult.inMetricsBlock, hm]
    · simp [PatternResult.fieldTexts, PatternResult.inMetricsBlock, hm]
  · intro hm
    simp [PatternResult.fieldTexts, PatternResult.inMetricsBlock, hm]

/-- The sample result shows its fabric width with the unit and, for a missing processing
time and a used length of 0 inside the metrics block, the placeholder. -/
theorem fields_default_to_na_witness :
    (PatternResult.result sampleResultState).truthy = true
    ∧ ((PatternResult.result sampleResultState).getPropOpt "metrics").truthy = true
    ∧ ∃ v, PatternResult.render demoPlatform sampleResultState = .result v
      ∧ (PatternResult.fieldTexts demoPlatform v).fabricWidth = "1500 mm"
      ∧ (PatternResult.fieldTexts demoPlatform v).processingTime = "N/A"
      ∧ (PatternResult.fieldTexts demoPlatform v).fabricUsedLength = some "N/A" := by
  obtain ⟨v, hv, hw, ht, _, hm, _⟩ :=
    fields_default_to_na demoPlatform sampleResultState (by decide)
  obtain ⟨usedLength, _, _, hl, _, _, hd, _⟩ := hm (by decide)
  refine ⟨by decide, by decide, v, hv, ((hw.1 (by decide)).2.1 (by decide)).trans (by decide),
    (ht.2 (by decide)).2, ?_⟩
  rw [hl, (hd.2 (by decide)).2]

/-- C28. ReportsPage state invariant: after any run of file choices and completed analyses
from the initial state, `analysis` and `error` are never both set: `analysis` is `null` or
`error` is empty. With a file chosen, a response whose body has no truthy `error` field sets
`analysis` to that body as it is and leaves `error` empty; and choosing a file clears both
`analysis` and `error`. -/
theorem analysis_and_error_exclusive (P : Platform) (env : Env) (events : List ReportsEvent) :
    ((ReportsPage.run P ReportsPage.init env events).1.analysis = .null
      ∨ (ReportsPage.run P ReportsPage.init env events).1.error = "")
    ∧ (∀ (s : ReportsState) (e : Env) file ok body err,
        s.file = some file → body.getProp "error" = some err → err.truthy = false →
        (ReportsPage.handleAnalyze P s e (.json ok body)).1.analysis = body
        ∧ (ReportsPage.handleAnalyze P s e (.json ok body)).1.error = ""
        ∧ (ReportsPage.handleAnalyze P s e (.json ok body)).1.loading = false)
    ∧ (∀ (s : ReportsState) picked,
        (ReportsPage.handleFileUpload s picked).analysis = .null
        ∧ (ReportsPage.handleFileUpload s picked).error = ""
        ∧ (ReportsPage.handleFileUpload s picked).file = picked) := by
  refine ⟨?_, ?_, ?_⟩
  · exact ReportsPage.run_invariant P events (ReportsPage.init, env) (Or.inl rfl)
  · intro s e file ok body err hf hb ht
    simp [ReportsPage.handleAnalyze, hf, hb, ht]
  · intro s picked
    exact ⟨rfl, rfl, rfl⟩

/-- A file is chosen and analysed with success: the body is kept and no error is set. -/
theorem analysis_and_error_exclusive_witness :
    (ReportsPage.run demoPlatform ReportsPage.init (Env.init Storage.empty)
        [.upload (some ⟨"report.pdf", "%PDF"⟩),
         .analyze (.json true (.obj [("summary", .str "fine")]))]).1.error = ""
    ∧ (ReportsPage.handleAnalyze demoPlatform sampleReports (Env.init Storage.empty)
        (.json true (.obj [("summary", .str "fine")]))).1.analysis
      = .obj [("summary", .str "fine")] :=
  ⟨((analysis_and_error_exclusive demoPlatform (Env.init Storage.empty)
      [.upload (some ⟨"report.pdf", "%PDF"⟩),
       .analyze (.json true (.obj [("summary", .str "fine")]))]).1).elim
      (fun h => nomatch h) id,
    ((analysis_and_error_exclusive demoPlatform (Env.init Storage.empty) []).2.1
      sampleReports (Env.init Storage.empty) ⟨"report.pdf", "%PDF"⟩ true
      (.obj [("summary", .str "fine")]) .undefined rfl rfl rfl).1⟩

/-- C29. TrackerPage frame and growth: a `handleTrack` that fails (a field missing, the
request or the parse failing, a response outside 2xx, a `null` body) leaves `result` and
`chartData` exactly as they were; one that succeeds appends exactly one point
`{ name: productType, CO2, Water }` to `chartData` and sets `result.co2` and `result.water`
to the two figures that were sent in the request. `chartData` is never cut: after any run of
edits and submissions from the initial state its length is the number of submissions that
succeeded. -/
theorem track_frame_and_growth (P : Platform) (env : Env) (events : List TrackerEvent) :
    (∀ (s : TrackerState) (e : Env) (o : FetchOutcome), TrackerPage.succeeds s o = false →
      (TrackerPage.handleTrack P s e o).1.result = s.result
      ∧ (TrackerPage.handleTrack P s e o).1.chartData = s.chartData)
    ∧ (∀ (s : TrackerState) (e : Env) (o : FetchOutcome), TrackerPage.succeeds s o = true →
      ∃ ghg waterC res,
        (TrackerPage.handleTrack P s e o).1.chartData
          = s.chartData ++ [{ name := s.productType, CO2 := ghg, Water := waterC }]
        ∧ (TrackerPage.handleTrack P s e o).1.result = some res
        ∧ res.co2 = ghg ∧ res.water = waterC
        ∧ (TrackerPage.handleTrack P s e o).2.requests = e.requests ++
            [{ method := "POST", url := "http://127.0.0.1:5000/predict",
               body := .json (.obj
                 [("product_type", .str s.productType),
                  ("greenhouse_gas_emissions", ghg),
                  ("water_consumption", waterC),
                  ("energy_consumption", (P.parseFloat s.energy).or (.num 0)),
                  ("pollutants_emitted", (P.parseFloat s.pollutant).or (.num 0)),
                  ("waste_generation", (P.parseFloat s.waste).or (.num 0)),
                  ("tone", .str s.tone)]) }])
    ∧ (TrackerPage.run P TrackerPage.init env events).1.chartData.length
        = TrackerPage.successes P (TrackerPage.init, env) events := by
  refine ⟨?_, ?_, ?_⟩
  · intro s e o h
    exact TrackerPage.handleTrack_frame P s e o h
  · intro s e o h
    obtain ⟨hchart, res, hres, hco2, hwater⟩ := TrackerPage.handleTrack_success P s e o h
    refine ⟨_, _, res, hchart, hres, hco2, hwater, ?_⟩
    have hfill := h
    simp only [TrackerPage.succeeds, Bool.and_eq_true, bne_iff_ne, ne_eq] at hfill
    obtain ⟨⟨⟨⟨⟨⟨h1, h2⟩, h3⟩, h4⟩, h5⟩, h6⟩, _⟩ := hfill
    rw [handleTrack_env_of_filled P s e o h1 h2 h3 h4 h5 h6]
    rfl
  · have := TrackerPage.run_chart_length P events (TrackerPage.init, env)
    simpa [TrackerPage.run, TrackerPage.init] using this

/-- A submission lost on the network keeps the chart of the sample form empty; one that is
answered adds a point. -/
theorem track_frame_and_growth_witness :
    TrackerPage.succeeds sampleTracker (.networkError "offline") = false
    ∧ (TrackerPage.handleTrack demoPlatform sampleTracker (Env.init Storage.empty)
        (.networkError "offline")).1.chartData = sampleTracker.chartData
    ∧ TrackerPage.succeeds sampleTracker (.json true (.obj [("eco_level", .str "A")])) = true
    ∧ (TrackerPage.handleTrack demoPlatform sampleTracker (Env.init Storage.empty)
        (.json true (.obj [("eco_level", .str "A")]))).1.chartData.length = 1 := by
  refine ⟨by decide, ((track_frame_and_growth demoPlatform (Env.init Storage.empty) []).1
    sampleTracker (Env.init Storage.empty) (.networkError "offline") (by decide)).2,
    by decide, ?_⟩
  obtain ⟨_, _, _, h, _⟩ := (track_frame_and_growth demoPlatform (Env.init Storage.empty)
    []).2.1 sampleTracker (Env.init Storage.empty)
    (.json true (.obj [("eco_level", .str "A")])) (by decide)
  rw [h]
  rfl

end EcoTrack
